import Mathlib

/-!
# sample-controller: the Foo reconciliation controller

A shallow embedding of `controller.go`.  The controller talks to its
collaborators (listers, typed clients, event recorder, work queue) through
interfaces; here every collaborator that answers is a field of `Controller`
holding the answer it gives, and every call that has an effect outside the
controller is recorded, in program order, in a list of `Call`s.

Pointers to scalars (`*int32`, `*bool`) are `Option`s, `nil` being `none`.
A Go `error` result is `Option Error`, `nil` being `none`.  A run either
returns or panics (`Completion`).  Log lines written through `klog` are not
recorded.
-/

namespace SampleController

/-! ## Data model -/

/-- Modelled from the spec: `metav1.OwnerReference`, the owner back-reference
of §3 (identity and type of the owner, plus the boolean "controller" flag).
The type is declared in k8s.io/apimachinery, outside src/. -/
structure OwnerReference where
  APIVersion : String
  Kind : String
  Name : String
  UID : String
  Controller : Option Bool
  BlockOwnerDeletion : Option Bool
deriving DecidableEq, Repr

/-- Modelled from the spec: `metav1.ObjectMeta`, the "minimal metadata
capability (name, namespace, owner back-reference list)" of §4.3, with the
UID, the version marker and the labels the controller reads or writes.  The
type is declared in k8s.io/apimachinery, outside src/. -/
structure ObjectMeta where
  Name : String
  Namespace : String
  UID : String
  ResourceVersion : String
  Labels : List (String × String)
  OwnerReferences : List OwnerReference
deriving DecidableEq, Repr

/-- Modelled from the spec: the spec block of the Primary Resource (§3):
`targetName` is `DeploymentName`, `desiredReplicas` is `Replicas`, a `*int32`
whose absence means "no replica opinion".  Declared in
pkg/apis/samplecontroller/v1alpha1, not under src/. -/
structure FooSpec where
  DeploymentName : String
  Replicas : Option Int
deriving DecidableEq, Repr

/-- Modelled from the spec: the status block of the Primary Resource (§3),
`observedAvailableReplicas`.  Declared in pkg/apis/samplecontroller/v1alpha1,
not under src/. -/
structure FooStatus where
  AvailableReplicas : Int
deriving DecidableEq, Repr

/-- Modelled from the spec: the Primary Resource `Foo` (§3): object metadata
(embedded, as in Go), a spec and a status.  Declared in
pkg/apis/samplecontroller/v1alpha1, not under src/. -/
structure Foo extends ObjectMeta where
  Spec : FooSpec
  Status : FooStatus
deriving DecidableEq, Repr

/-- Modelled from the spec: `corev1.Container`, restricted to the two fields
`newDeployment` sets.  Declared in k8s.io/api, outside src/. -/
structure Container where
  Name : String
  Image : String
deriving DecidableEq, Repr

/-- Modelled from the spec: `corev1.PodSpec`, restricted to the field
`newDeployment` sets.  Declared in k8s.io/api, outside src/. -/
structure PodSpec where
  Containers : List Container
deriving DecidableEq, Repr

/-- Modelled from the spec: `corev1.PodTemplateSpec` (the `template` of §3).
Declared in k8s.io/api, outside src/. -/
structure PodTemplateSpec where
  ObjectMeta : ObjectMeta
  Spec : PodSpec
deriving DecidableEq, Repr

/-- Modelled from the spec: `metav1.LabelSelector` (the `selector` of §3),
restricted to `MatchLabels`.  Declared in k8s.io/apimachinery, outside src/. -/
structure LabelSelector where
  MatchLabels : List (String × String)
deriving DecidableEq, Repr

/-- Modelled from the spec: `appsv1.DeploymentSpec`: `replicas` (a `*int32`)
and the `selector`/`template` pair of §3.  Declared in k8s.io/api, outside
src/. -/
structure DeploymentSpec where
  Replicas : Option Int
  Selector : Option LabelSelector
  Template : PodTemplateSpec
deriving DecidableEq, Repr

/-- Modelled from the spec: `appsv1.DeploymentStatus`, restricted to the
observed availability count of §4.4 step 4.  Declared in k8s.io/api, outside
src/. -/
structure DeploymentStatus where
  AvailableReplicas : Int
deriving DecidableEq, Repr

/-- Modelled from the spec: the Secondary Resource `appsv1.Deployment` (§3).
Declared in k8s.io/api, outside src/. -/
structure Deployment extends ObjectMeta where
  Spec : DeploymentSpec
  Status : DeploymentStatus
deriving DecidableEq, Repr

/-- Modelled from the spec: `cache.ObjectName`, the Work Item of §3 ("an
opaque identity (namespace + name) of a Primary Resource").  Declared in
k8s.io/client-go, outside src/. -/
structure ObjectName where
  Namespace : String
  Name : String
deriving DecidableEq, Repr

/-- Modelled from the spec: a Go `error` value as the controller sees it: the
status reason an API error carries (`"NotFound"` for the not-found of §7, the
empty string for an error that is not an API status) and its text, kept as a
format string with its arguments. -/
structure Error where
  Reason : String
  Format : String
  Args : List String
deriving DecidableEq, Repr

/-- A value of Go's `interface{}` as the event handlers receive it: a Foo, a
Deployment, any other value implementing `metav1.Object`, a
`cache.DeletedFinalStateUnknown` tombstone (key and last known object), or a
value of any other type. -/
inductive Obj where
  | foo (f : Foo)
  | deployment (d : Deployment)
  | object (m : ObjectMeta)
  | tombstone (Key : String) (Obj : Obj)
  | other (typeName : String)
deriving Repr

/-- How a run of a function ends: it returns a value, or it panics and the
panic propagates to its caller. -/
inductive Completion (α : Type) where
  | returned (a : α)
  | panicked
deriving DecidableEq, Repr

/-- The calls the controller makes on its collaborators that have an effect
outside it, with their arguments. -/
inductive Call where
  /-- The call `kubeclientset.AppsV1().Deployments(ns).Create(ctx, d, ...)`. -/
  | deploymentsCreate (ns : String) (d : Deployment)
  /-- The call `kubeclientset.AppsV1().Deployments(ns).Update(ctx, d, ...)`. -/
  | deploymentsUpdate (ns : String) (d : Deployment)
  /-- The call `sampleclientset.SamplecontrollerV1alpha1().Foos(ns).UpdateStatus(ctx, f, ...)`. -/
  | foosUpdateStatus (ns : String) (f : Foo)
  /-- The call `recorder.Event(obj, eventtype, reason, message)`; the message is
  a format string with its arguments. -/
  | event (obj : Foo) (eventtype reason : String) (format : String) (args : List String)
  /-- A call of `utilruntime.HandleError` or `HandleErrorWithContext`. -/
  | handleError (err : Option Error) (msg : String)
  /-- The call `workqueue.Get()`. -/
  | queueGet
  /-- The call `workqueue.Add(item)`. -/
  | queueAdd (item : ObjectName)
  /-- The call `workqueue.Done(item)`. -/
  | queueDone (item : ObjectName)
  /-- The call `workqueue.Forget(item)`. -/
  | queueForget (item : ObjectName)
  /-- The call `workqueue.AddRateLimited(item)`. -/
  | queueAddRateLimited (item : ObjectName)
deriving DecidableEq, Repr

/-- The controller's collaborators (`type Controller struct`), each as the
answer it gives when called.  `foosLister ns name` is
`c.foosLister.Foos(ns).Get(name)`, `deploymentsLister ns name` is
`c.deploymentsLister.Deployments(ns).Get(name)`; `deploymentsCreate`,
`deploymentsUpdate` (of `kubeclientset`) and `foosUpdateStatus` (of
`sampleclientset`) are the typed clients' write calls, returning the stored
object or an error; `workqueueGet` is what `c.workqueue.Get()` returns (item
and shutdown flag).  The recorder and the other queue methods return nothing;
calls on them appear in the list of `Call`s. -/
structure Controller where
  foosLister : String → String → Except Error Foo
  deploymentsLister : String → String → Except Error Deployment
  deploymentsCreate : String → Deployment → Except Error Deployment
  deploymentsUpdate : String → Deployment → Except Error Deployment
  foosUpdateStatus : String → Foo → Except Error Foo
  workqueueGet : ObjectName × Bool

/-! ## Constants -/

def controllerAgentName : String := "sample-controller"

/-- SuccessSynced is used as part of the Event reason when a Foo is synced. -/
def SuccessSynced : String := "Synced"

/-- ErrResourceExists is used as part of the Event reason when a Foo fails to
sync due to a Deployment of the same name already existing. -/
def ErrResourceExists : String := "ErrResourceExists"

/-- MessageResourceExists is the message used for Events when a resource fails
to sync due to a Deployment already existing. -/
def MessageResourceExists : String := "Resource %q already exists and is not managed by Foo"

/-- MessageResourceSynced is the message used for an Event fired when a Foo is
synced successfully. -/
def MessageResourceSynced : String := "Foo synced successfully"

def FieldManager : String := controllerAgentName

/-- Modelled from the spec: `corev1.EventTypeWarning`, the type of the
"warning-level notification event" of §4.4.  Declared in k8s.io/api. -/
def EventTypeWarning : String := "Warning"

/-- Modelled from the spec: `corev1.EventTypeNormal`, the type of the
"success notification event" of §4.4.  Declared in k8s.io/api. -/
def EventTypeNormal : String := "Normal"

/-- Modelled from the spec: `samplev1alpha1.SchemeGroupVersion`, rendered as
an `apiVersion` string.  Declared in pkg/apis/samplecontroller/v1alpha1, not
under src/; the spec does not fix its value and no property below depends on
it. -/
def SchemeGroupVersion : String := "samplecontroller.k8s.io/v1alpha1"

/-- Modelled from the spec: `metav1.StatusReasonNotFound`, the reason of the
"Not-found" errors of §7.  Declared in k8s.io/apimachinery. -/
def StatusReasonNotFound : String := "NotFound"

/-! ## Library helpers the controller calls -/

/-- Modelled from the spec: `errors.IsNotFound` (k8s.io/apimachinery, outside
src/): whether an error is the "Not-found" of §7.  A nil error is not. -/
def IsNotFound (err : Option Error) : Bool :=
  match err with
  | none => false
  | some e => e.Reason == StatusReasonNotFound

/-- Modelled from the spec: `metav1.GetControllerOf` (k8s.io/apimachinery,
outside src/): the owner back-reference holding the controller flag (§3: at
most one owner may hold it; the first one found is returned), or nil. -/
def GetControllerOf (controllee : ObjectMeta) : Option OwnerReference :=
  controllee.OwnerReferences.find? (fun ref => ref.Controller == some true)

/-- Modelled from the spec: `metav1.IsControlledBy` (k8s.io/apimachinery,
outside src/): §4.4 step 3, an object is controlled by an owner unless the
"owner back-reference [is] missing or controller flag unset or pointing
elsewhere"; the reference points at the owner when it carries the owner's
UID. -/
def IsControlledBy (obj : ObjectMeta) (owner : ObjectMeta) : Bool :=
  match GetControllerOf obj with
  | none => false
  | some ref => ref.UID == owner.UID

/-- Modelled from the spec: `metav1.NewControllerRef` (k8s.io/apimachinery,
outside src/): the "owner back-reference set with the controller flag" of
§4.4 step 3, recording the identity and type of the owner. -/
def NewControllerRef (owner : ObjectMeta) (apiVersion kind : String) : OwnerReference :=
  { APIVersion := apiVersion
    Kind := kind
    Name := owner.Name
    UID := owner.UID
    BlockOwnerDeletion := some true
    Controller := some true }

/-- Modelled from the spec: the type assertion `obj.(metav1.Object)`: the
"minimal metadata capability" of §4.3.  Foos, Deployments and other metadata
objects have it; a tombstone and values of other types do not. -/
def Obj.asObject : Obj → Option ObjectMeta
  | .foo f => some f.toObjectMeta
  | .deployment d => some d.toObjectMeta
  | .object m => some m
  | .tombstone _ _ => none
  | .other _ => none

/-- Modelled from the spec: `cache.MetaObjectToName` (k8s.io/client-go,
outside src/): the identity (namespace + name) of an object. -/
def MetaObjectToName (obj : ObjectMeta) : ObjectName :=
  if obj.Namespace.length > 0 then
    { Namespace := obj.Namespace, Name := obj.Name }
  else
    { Namespace := "", Name := obj.Name }

/-- Modelled from the spec: `cache.ObjectToName` (k8s.io/client-go, outside
src/): the identity of an object that has metadata, an error otherwise. -/
def ObjectToName (obj : Obj) : Except Error ObjectName :=
  match obj.asObject with
  | some m => .ok (MetaObjectToName m)
  | none => .error { Reason := "", Format := "object has no meta: %v", Args := ["object does not implement the Object interfaces"] }

/-! ## controller.go -/

/-- newDeployment creates a new Deployment for a Foo resource. It also sets
the appropriate OwnerReferences on the resource so handleObject can discover
the Foo resource that owns it. -/
def newDeployment (foo : Foo) : Deployment :=
  let labels : List (String × String) := [("app", "nginx"), ("controller", foo.Name)]
  { Name := foo.Spec.DeploymentName
    Namespace := foo.Namespace
    UID := ""
    ResourceVersion := ""
    Labels := []
    OwnerReferences := [NewControllerRef foo.toObjectMeta SchemeGroupVersion "Foo"]
    Spec :=
      { Replicas := foo.Spec.Replicas
        Selector := some { MatchLabels := labels }
        Template :=
          { ObjectMeta :=
              { Name := "", Namespace := "", UID := "", ResourceVersion := ""
                Labels := labels, OwnerReferences := [] }
            Spec := { Containers := [{ Name := "nginx", Image := "nginx:latest" }] } } }
    Status := { AvailableReplicas := 0 } }

/-- Modelled from the spec: the generated `(*Foo).DeepCopy`
(pkg/apis/samplecontroller/v1alpha1, not under src/): a new object whose
fields equal the receiver's ("make a deep copy of original object and modify
this copy"); the receiver is not touched. -/
def Foo.DeepCopy (f : Foo) : Foo := f

/-- The two Foo objects `updateFooStatus` has in hand: the object its
argument `foo` points to, which is the one held in the lister's cache, and
the object `fooCopy` points to. -/
structure FooObjects where
  foo : Foo
  fooCopy : Foo
deriving DecidableEq, Repr

/-- What a call of `updateFooStatus` leaves behind: the calls it made, the
error it returns, and the object its argument `foo` points to (the cached
Foo) as it is when the function returns. -/
structure StatusUpdate where
  calls : List Call
  err : Option Error
  foo : Foo
deriving DecidableEq, Repr

/-- The function updateFooStatus: copies the Foo (`DeepCopy`), sets the
copy's `Status.AvailableReplicas` to the Deployment's and sends the copy
through `UpdateStatus`.  The two objects are passed along explicitly: the
assignment goes through `fooCopy`, so it changes the copy and not the cached
object. -/
def updateFooStatus (c : Controller) (foo : Foo) (deployment : Deployment) : StatusUpdate :=
  -- fooCopy := foo.DeepCopy()
  let objs : FooObjects := { foo := foo, fooCopy := foo.DeepCopy }
  -- fooCopy.Status.AvailableReplicas = deployment.Status.AvailableReplicas
  let objs : FooObjects :=
    { objs with
      fooCopy :=
        { objs.fooCopy with
          Status :=
            { objs.fooCopy.Status with
              AvailableReplicas := deployment.Status.AvailableReplicas } } }
  -- _, err := ...Foos(foo.Namespace).UpdateStatus(ctx, fooCopy, ...)
  { calls := [.foosUpdateStatus objs.foo.Namespace objs.fooCopy]
    err :=
      match c.foosUpdateStatus objs.foo.Namespace objs.fooCopy with
      | .ok _ => none
      | .error err => some err
    foo := objs.foo }

/-- The function syncHandler: compares the actual state with the desired, and
attempts to converge the two. It then updates the Status block of the Foo
resource with the current status of the resource.  Returns the calls made, in
order, and how the run ended. -/
def syncHandler (c : Controller) (objectRef : ObjectName) :
    List Call × Completion (Option Error) :=
  -- Get the Foo resource with this namespace/name
  match c.foosLister objectRef.Namespace objectRef.Name with
  | .error err =>
    if IsNotFound (some err) then
      ([.handleError (some err) "Foo referenced by item in work queue no longer exists"],
        .returned none)
    else
      ([], .returned (some err))
  | .ok foo =>
    let deploymentName := foo.Spec.DeploymentName
    if deploymentName = "" then
      ([.handleError none "Deployment name missing from object reference"], .returned none)
    else
      -- Get the deployment with the name specified in Foo.spec;
      -- if the resource does not exist, create it
      let got : List Call × Except Error Deployment :=
        match c.deploymentsLister foo.Namespace deploymentName with
        | .ok deployment => ([], .ok deployment)
        | .error err =>
          if IsNotFound (some err) then
            ([.deploymentsCreate foo.Namespace (newDeployment foo)],
              c.deploymentsCreate foo.Namespace (newDeployment foo))
          else
            ([], .error err)
      match got.2 with
      | .error err => (got.1, .returned (some err))
      | .ok deployment =>
        -- If the Deployment is not controlled by this Foo resource, log a
        -- warning to the event recorder and return an error
        if !IsControlledBy deployment.toObjectMeta foo.toObjectMeta then
          (got.1 ++ [.event foo EventTypeWarning ErrResourceExists MessageResourceExists [deployment.Name]],
            .returned (some { Reason := "", Format := MessageResourceExists, Args := [deployment.Name] }))
        else
          -- foo.Spec.Replicas != nil && *foo.Spec.Replicas != *deployment.Spec.Replicas
          let test : Completion Bool :=
            match foo.Spec.Replicas with
            | none => .returned false
            | some fooReplicas =>
              match deployment.Spec.Replicas with
              | none => .panicked
              | some deploymentReplicas => .returned (fooReplicas != deploymentReplicas)
          match test with
          | .panicked => (got.1, .panicked)
          | .returned needsUpdate =>
            let updated : List Call × Except Error Deployment :=
              if needsUpdate then
                (got.1 ++ [.deploymentsUpdate foo.Namespace (newDeployment foo)],
                  c.deploymentsUpdate foo.Namespace (newDeployment foo))
              else
                (got.1, .ok deployment)
            match updated.2 with
            | .error err => (updated.1, .returned (some err))
            | .ok deployment =>
              -- Finally, update the status block of the Foo resource
              -- (`foo` below is the cached object as updateFooStatus left it)
              let status := updateFooStatus c foo deployment
              match status.err with
              | some err => (updated.1 ++ status.calls, .returned (some err))
              | none =>
                (updated.1 ++ status.calls ++
                    [.event status.foo EventTypeNormal SuccessSynced MessageResourceSynced []],
                  .returned none)

/-- The function processNextWorkItem: reads a single work item off the
workqueue and attempts to process it, by calling the syncHandler.  `Done` is
deferred: it runs when the function leaves, by return or by panic. -/
def processNextWorkItem (c : Controller) : List Call × Completion Bool :=
  let (objRef, shutdown) := c.workqueueGet
  if shutdown then
    ([.queueGet], .returned false)
  else
    match syncHandler c objRef with
    | (calls, .returned none) =>
      ([.queueGet] ++ calls ++ [.queueForget objRef] ++ [.queueDone objRef], .returned true)
    | (calls, .returned (some err)) =>
      ([.queueGet] ++ calls ++
          [.handleError (some err) "Error syncing; requeuing for later retry",
            .queueAddRateLimited objRef] ++ [.queueDone objRef],
        .returned true)
    | (calls, .panicked) =>
      ([.queueGet] ++ calls ++ [.queueDone objRef], .panicked)

/-- The function enqueueFoo: takes a Foo resource and converts it into a
namespace/name reference which is then put onto the work queue. -/
def enqueueFoo (obj : Obj) : List Call :=
  match ObjectToName obj with
  | .error err => [.handleError (some err) ""]
  | .ok objectRef => [.queueAdd objectRef]

/-- The function handleObject: takes any resource implementing metav1.Object
and attempts to find the Foo resource that owns it, by looking at the
object's ownerReferences for an appropriate OwnerReference.  It then enqueues
that Foo resource to be processed.  If the object does not have an
appropriate OwnerReference, it is skipped. -/
def handleObject (c : Controller) (obj : Obj) : List Call :=
  let decoded : Except (List Call) ObjectMeta :=
    match obj.asObject with
    | some object => .ok object
    | none =>
      match obj with
      | .tombstone _ inner =>
        match inner.asObject with
        | some object => .ok object
        | none => .error [.handleError none "Error decoding object tombstone, invalid type"]
      | _ => .error [.handleError none "Error decoding object, invalid type"]
  match decoded with
  | .error calls => calls
  | .ok object =>
    match GetControllerOf object with
    | none => []
    | some ownerRef =>
      -- If this object is not owned by a Foo, do nothing more with it
      if ownerRef.Kind != "Foo" then
        []
      else
        match c.foosLister object.Namespace ownerRef.Name with
        | .error _ => []
        | .ok foo => enqueueFoo (.foo foo)

/-! ## Event handlers registered by NewController -/

/-- The `AddFunc` of the Foo event handler: `controller.enqueueFoo`. -/
def fooAddFunc (obj : Obj) : List Call :=
  enqueueFoo obj

/-- The `UpdateFunc` of the Foo event handler: enqueues the new object,
whatever the old one is. -/
def fooUpdateFunc (_old new : Obj) : List Call :=
  enqueueFoo new

/-- The `AddFunc` of the Deployment event handler: `controller.handleObject`. -/
def deploymentAddFunc (c : Controller) (obj : Obj) : List Call :=
  handleObject c obj

/-- The `UpdateFunc` of the Deployment event handler: both arguments are
asserted to be Deployments (an unchecked type assertion panics on anything
else); an update whose old and new ResourceVersion are equal is a periodic
resync and is dropped, any other is passed to `handleObject`. -/
def deploymentUpdateFunc (c : Controller) (old new : Obj) : List Call × Completion Unit :=
  match new with
  | .deployment newDepl =>
    match old with
    | .deployment oldDepl =>
      if newDepl.ResourceVersion = oldDepl.ResourceVersion then
        -- Periodic resync will send update events for all known Deployments.
        ([], .returned ())
      else
        (handleObject c new, .returned ())
    | _ => ([], .panicked)
  | _ => ([], .panicked)

/-- The `DeleteFunc` of the Deployment event handler:
`controller.handleObject`. -/
def deploymentDeleteFunc (c : Controller) (obj : Obj) : List Call :=
  handleObject c obj

/-! ## Observations on a list of calls -/

/-- The Deployment `Create` calls of a run, in order. -/
def createCalls (calls : List Call) : List Call :=
  calls.filter (fun k => match k with | .deploymentsCreate _ _ => true | _ => false)

/-- The Deployment `Update` calls of a run, in order. -/
def updateCalls (calls : List Call) : List Call :=
  calls.filter (fun k => match k with | .deploymentsUpdate _ _ => true | _ => false)

/-- The Foo `UpdateStatus` calls of a run, in order. -/
def statusCalls (calls : List Call) : List Call :=
  calls.filter (fun k => match k with | .foosUpdateStatus _ _ => true | _ => false)

/-- The remote write calls of a run (Deployment Create, Deployment Update,
Foo UpdateStatus), in order. -/
def writeCalls (calls : List Call) : List Call :=
  calls.filter (fun k =>
    match k with
    | .deploymentsCreate _ _ => true
    | .deploymentsUpdate _ _ => true
    | .foosUpdateStatus _ _ => true
    | _ => false)

/-- The events recorded by a run, in order. -/
def eventCalls (calls : List Call) : List Call :=
  calls.filter (fun k => match k with | .event _ _ _ _ _ => true | _ => false)

/-- The work-queue calls of a run after `Get`, in order. -/
def queueCalls (calls : List Call) : List Call :=
  calls.filter (fun k =>
    match k with
    | .queueAdd _ => true
    | .queueDone _ => true
    | .queueForget _ => true
    | .queueAddRateLimited _ => true
    | _ => false)

/-! ## Concrete states used as witnesses -/

/-- A not-found API error, as a lister returns for an absent object. -/
def fixtureNotFound : Error :=
  { Reason := StatusReasonNotFound, Format := "%s %q not found", Args := ["object", "missing"] }

/-- A transient API error that is not a not-found. -/
def fixtureUnavailable : Error :=
  { Reason := "ServiceUnavailable", Format := "the server is currently unable to handle the request", Args := [] }

/-- A controller over given caches: the listers answer from the two lists
(not-found when no entry has the namespace and name asked for), the clients
accept every write and return the object written, and the queue hands out
`item`. -/
def fixtureController (foos : List Foo) (deployments : List Deployment) (item : ObjectName) :
    Controller :=
  { foosLister := fun ns name =>
      match foos.find? (fun f => f.Namespace == ns && f.Name == name) with
      | some f => .ok f
      | none => .error fixtureNotFound
    deploymentsLister := fun ns name =>
      match deployments.find? (fun d => d.Namespace == ns && d.Name == name) with
      | some d => .ok d
      | none => .error fixtureNotFound
    deploymentsCreate := fun _ d => .ok d
    deploymentsUpdate := fun _ d => .ok d
    foosUpdateStatus := fun _ f => .ok f
    workqueueGet := (item, false) }

/-- A Foo `default/example-foo` asking for 3 replicas of a Deployment named
`example-deploy`, whose status already reports 2 available replicas. -/
def fixtureFoo : Foo :=
  { Name := "example-foo", Namespace := "default", UID := "uid-foo", ResourceVersion := "7"
    Labels := [], OwnerReferences := []
    Spec := { DeploymentName := "example-deploy", Replicas := some 3 }
    Status := { AvailableReplicas := 2 } }

/-- The work item of `fixtureFoo`. -/
def fixtureRef : ObjectName := { Namespace := "default", Name := "example-foo" }

/-- The Deployment of `fixtureFoo` as stored, with a given replica count and
2 available replicas. -/
def fixtureDeployment (replicas : Option Int) : Deployment :=
  { newDeployment fixtureFoo with
    UID := "uid-deploy", ResourceVersion := "11"
    Spec := { (newDeployment fixtureFoo).Spec with Replicas := replicas }
    Status := { AvailableReplicas := 2 } }

/-- A Deployment named like the one `fixtureFoo` asks for, with no owner
reference. -/
def fixtureStranger : Deployment :=
  { fixtureDeployment (some 1) with OwnerReferences := [] }

/-- The controller of `fixtureController` with all three remote writes
failing with `fixtureUnavailable`. -/
def fixtureBrokenWrites (foos : List Foo) (deployments : List Deployment) (item : ObjectName) :
    Controller :=
  { fixtureController foos deployments item with
    deploymentsCreate := fun _ _ => .error fixtureUnavailable
    deploymentsUpdate := fun _ _ => .error fixtureUnavailable
    foosUpdateStatus := fun _ _ => .error fixtureUnavailable }

/-- The controller of `fixtureController` with a Foo lister that fails with
`fixtureUnavailable`. -/
def fixtureBrokenFoos (item : ObjectName) : Controller :=
  { fixtureController [] [] item with foosLister := fun _ _ => .error fixtureUnavailable }

/-- The controller of `fixtureController` with a Deployment lister that fails
with `fixtureUnavailable`. -/
def fixtureBrokenDeployments (foos : List Foo) (item : ObjectName) : Controller :=
  { fixtureController foos [] item with
    deploymentsLister := fun _ _ => .error fixtureUnavailable }

/-- The controller of `fixtureController` with a queue that reports
shutdown. -/
def fixtureShutDown (item : ObjectName) : Controller :=
  { fixtureController [] [] item with workqueueGet := (item, true) }

/-- A Foo `default/nameless-foo` whose `Spec.DeploymentName` is empty. -/
def fixtureNameless : Foo :=
  { fixtureFoo with Name := "nameless-foo", Spec := { DeploymentName := "", Replicas := some 3 } }

end SampleController

namespace SampleController

/-! ## Helper lemmas -/

theorem IsControlledBy_eq_false_iff (obj owner : ObjectMeta) :
    IsControlledBy obj owner = false ↔
      ((∀ ref ∈ obj.OwnerReferences, ref.Controller ≠ some true)
        ∨ ∃ ref, GetControllerOf obj = some ref ∧ ref.UID ≠ owner.UID) := by
  unfold IsControlledBy
  cases h : GetControllerOf obj with
  | none =>
    simp only [true_iff]
    left
    intro ref hmem hflag
    have := List.find?_eq_none.mp h ref hmem
    simp [hflag] at this
  | some ref =>
    constructor
    · intro hne
      right
      exact ⟨ref, rfl, by simpa using hne⟩
    · rintro (hall | ⟨ref2, href, hne⟩)
      · have hmem := List.mem_of_find?_eq_some h
        have hflag := List.find?_some h
        exact absurd (by simpa using hflag) (hall ref hmem)
      · cases href
        simpa using hne

/-! ## Reconciliation: creation, convergence, conflict -/

/-- C1 (Creation): for a Foo found in the cache with a non-empty
`Spec.DeploymentName` whose Deployment lookup in the Foo's namespace answers
not-found, `syncHandler` issues exactly one Create call; its object is
`newDeployment foo`, which has the name `Spec.DeploymentName`, the Foo's
namespace, the Foo's replica count, and exactly one owner reference, naming
the Foo (name, UID, kind "Foo") with the controller flag set. -/
theorem syncHandler_creates (c : Controller) (objectRef : ObjectName) (foo : Foo) (err : Error)
    (hfoo : c.foosLister objectRef.Namespace objectRef.Name = .ok foo)
    (hname : foo.Spec.DeploymentName ≠ "")
    (hget : c.deploymentsLister foo.Namespace foo.Spec.DeploymentName = .error err)
    (habsent : IsNotFound (some err) = true) :
    createCalls (syncHandler c objectRef).1
        = [.deploymentsCreate foo.Namespace (newDeployment foo)]
      ∧ (newDeployment foo).Name = foo.Spec.DeploymentName
      ∧ (newDeployment foo).Namespace = foo.Namespace
      ∧ (newDeployment foo).Spec.Replicas = foo.Spec.Replicas
      ∧ ∃ ref, (newDeployment foo).OwnerReferences = [ref] ∧ ref.Name = foo.Name
          ∧ ref.UID = foo.UID ∧ ref.Kind = "Foo" ∧ ref.Controller = some true := by
  refine ⟨?_, rfl, rfl, rfl, _, rfl, rfl, rfl, rfl, rfl⟩
  unfold syncHandler updateFooStatus Foo.DeepCopy
  simp only [hfoo, hname, hget, habsent, if_true, if_false]
  repeat' split
  all_goals simp [createCalls]

/-- Witness of C1: `fixtureFoo` in the cache, no Deployment in the cache. -/
theorem syncHandler_creates_witness :
    (fixtureController [fixtureFoo] [] fixtureRef).foosLister fixtureRef.Namespace fixtureRef.Name
        = .ok fixtureFoo
      ∧ fixtureFoo.Spec.DeploymentName ≠ ""
      ∧ createCalls (syncHandler (fixtureController [fixtureFoo] [] fixtureRef) fixtureRef).1
          = [.deploymentsCreate "default" (newDeployment fixtureFoo)]
      ∧ (newDeployment fixtureFoo).OwnerReferences
          = [{ APIVersion := SchemeGroupVersion, Kind := "Foo", Name := "example-foo",
               UID := "uid-foo", Controller := some true, BlockOwnerDeletion := some true }] :=
  ⟨rfl, by decide,
    (syncHandler_creates (fixtureController [fixtureFoo] [] fixtureRef) fixtureRef fixtureFoo
      fixtureNotFound rfl (by decide) rfl rfl).1,
    rfl⟩

/-- C2 (Convergence): for a Foo and its existing Deployment (found under
`Spec.DeploymentName` in the Foo's namespace) controlled by the Foo,
`syncHandler` issues an Update call exactly when the Foo declares a replica
count `R` and the Deployment's replica count is a different number; then the
Update calls are exactly one, with object `newDeployment foo`, whose replica
count is `R`.  When the Foo declares no count or the counts are equal there
is no Update call; in particular a later run against a state whose Deployment
has replicas `R` issues none.  (A Deployment without a replica count, against
a Foo that declares one, makes the comparison panic before any Update.) -/
theorem syncHandler_update_iff (c : Controller) (objectRef : ObjectName) (foo : Foo)
    (d : Deployment)
    (hfoo : c.foosLister objectRef.Namespace objectRef.Name = .ok foo)
    (hname : foo.Spec.DeploymentName ≠ "")
    (hget : c.deploymentsLister foo.Namespace foo.Spec.DeploymentName = .ok d)
    (hctl : IsControlledBy d.toObjectMeta foo.toObjectMeta = true) :
    (updateCalls (syncHandler c objectRef).1 ≠ [] ↔
        ∃ R r, foo.Spec.Replicas = some R ∧ d.Spec.Replicas = some r ∧ R ≠ r)
      ∧ (∀ R r, foo.Spec.Replicas = some R → d.Spec.Replicas = some r → R ≠ r →
          updateCalls (syncHandler c objectRef).1
              = [.deploymentsUpdate foo.Namespace (newDeployment foo)]
            ∧ (newDeployment foo).Spec.Replicas = some R)
      ∧ (foo.Spec.Replicas = none ∨ foo.Spec.Replicas = d.Spec.Replicas →
          updateCalls (syncHandler c objectRef).1 = [])
      ∧ (∀ (c2 : Controller) (d2 : Deployment) (R : Int),
          c2.foosLister objectRef.Namespace objectRef.Name = .ok foo →
          c2.deploymentsLister foo.Namespace foo.Spec.DeploymentName = .ok d2 →
          IsControlledBy d2.toObjectMeta foo.toObjectMeta = true →
          foo.Spec.Replicas = some R → d2.Spec.Replicas = some R →
          updateCalls (syncHandler c2 objectRef).1 = []) := by
  have key : ∀ (c : Controller) (d : Deployment),
      c.foosLister objectRef.Namespace objectRef.Name = .ok foo →
      c.deploymentsLister foo.Namespace foo.Spec.DeploymentName = .ok d →
      IsControlledBy d.toObjectMeta foo.toObjectMeta = true →
      updateCalls (syncHandler c objectRef).1 =
        match foo.Spec.Replicas, d.Spec.Replicas with
        | some R, some r =>
          if R = r then [] else [.deploymentsUpdate foo.Namespace (newDeployment foo)]
        | _, _ => [] := by
    intro c d hfoo hget hctl
    unfold syncHandler updateFooStatus Foo.DeepCopy
    simp only [hfoo, hname, hget, hctl, if_false, Bool.not_true]
    rcases hR : foo.Spec.Replicas with _ | R
    · simp only []
      repeat' split
      all_goals simp_all [updateCalls]
    · rcases hr : d.Spec.Replicas with _ | r
      · simp [updateCalls]
      · by_cases hRr : R = r
        · subst hRr
          simp only [bne_self_eq_false]
          repeat' split
          all_goals simp_all [updateCalls]
        · have hb : (R != r) = true := by simpa using hRr
          simp only [hb, hRr, if_true, if_false]
          repeat' split
          all_goals simp_all [updateCalls]
  refine ⟨?_, ?_, ?_, ?_⟩
  · rw [key c d hfoo hget hctl]
    constructor
    · intro h
      rcases hR : foo.Spec.Replicas with _ | R
      · simp [hR] at h
      · rcases hr : d.Spec.Replicas with _ | r
        · simp [hR, hr] at h
        · refine ⟨R, r, rfl, rfl, ?_⟩
          intro hRr
          simp [hR, hr, hRr] at h
    · rintro ⟨R, r, hR, hr, hRr⟩
      simp [hR, hr, hRr]
  · intro R r hR hr hRr
    rw [key c d hfoo hget hctl]
    refine ⟨by simp [hR, hr, hRr], ?_⟩
    simp [newDeployment, hR]
  · intro h
    rw [key c d hfoo hget hctl]
    rcases h with h | h
    · simp [h]
    · rcases hR : foo.Spec.Replicas with _ | R
      · simp
      · have hr : d.Spec.Replicas = some R := by rw [← h, hR]
        simp [hr]
  · intro c2 d2 R hfoo2 hget2 hctl2 hR hr
    rw [key c2 d2 hfoo2 hget2 hctl2]
    simp [hR, hr]

/-- Witness of C2: `fixtureFoo` wants 3 replicas, its Deployment has 1. -/
theorem syncHandler_update_iff_witness :
    (fixtureController [fixtureFoo] [fixtureDeployment (some 1)] fixtureRef).deploymentsLister
        fixtureFoo.Namespace fixtureFoo.Spec.DeploymentName = .ok (fixtureDeployment (some 1))
      ∧ IsControlledBy (fixtureDeployment (some 1)).toObjectMeta fixtureFoo.toObjectMeta = true
      ∧ updateCalls
          (syncHandler (fixtureController [fixtureFoo] [fixtureDeployment (some 1)] fixtureRef)
            fixtureRef).1
          = [.deploymentsUpdate "default" (newDeployment fixtureFoo)]
      ∧ (newDeployment fixtureFoo).Spec.Replicas = some 3 :=
  ⟨rfl, rfl,
    ((syncHandler_update_iff
        (fixtureController [fixtureFoo] [fixtureDeployment (some 1)] fixtureRef) fixtureRef
        fixtureFoo (fixtureDeployment (some 1)) rfl (by decide) rfl rfl).2.1
      3 1 rfl rfl (by decide)).1,
    rfl⟩

/-- C3 (Conflict detection): for a Foo with a non-empty `Spec.DeploymentName`
and a Deployment of that name found in the cache that is not controlled by
the Foo (no owner reference, no owner reference with the controller flag set,
or a controller reference whose UID is not the Foo's), `syncHandler` returns
a non-nil error and its only call is one event, of type Warning with reason
`ErrResourceExists` on the Foo: no Create, Update or UpdateStatus. -/
theorem syncHandler_conflict (c : Controller) (objectRef : ObjectName) (foo : Foo)
    (d : Deployment)
    (hfoo : c.foosLister objectRef.Namespace objectRef.Name = .ok foo)
    (hname : foo.Spec.DeploymentName ≠ "")
    (hget : c.deploymentsLister foo.Namespace foo.Spec.DeploymentName = .ok d)
    (hnot : d.OwnerReferences = []
      ∨ (∀ ref ∈ d.OwnerReferences, ref.Controller ≠ some true)
      ∨ ∃ ref, GetControllerOf d.toObjectMeta = some ref ∧ ref.UID ≠ foo.UID) :
    (∃ err, (syncHandler c objectRef).2 = .returned (some err))
      ∧ (syncHandler c objectRef).1
          = [.event foo EventTypeWarning ErrResourceExists MessageResourceExists [d.Name]]
      ∧ eventCalls (syncHandler c objectRef).1
          = [.event foo EventTypeWarning ErrResourceExists MessageResourceExists [d.Name]]
      ∧ writeCalls (syncHandler c objectRef).1 = [] := by
  have hctl : IsControlledBy d.toObjectMeta foo.toObjectMeta = false := by
    rw [IsControlledBy_eq_false_iff]
    rcases hnot with h | h | h
    · left
      intro ref hmem
      rw [h] at hmem
      cases hmem
    · exact Or.inl h
    · exact Or.inr h
  have hrun : syncHandler c objectRef
      = ([.event foo EventTypeWarning ErrResourceExists MessageResourceExists [d.Name]],
          .returned (some { Reason := "", Format := MessageResourceExists, Args := [d.Name] })) := by
    unfold syncHandler
    simp [hfoo, hname, hget, hctl]
  rw [hrun]
  exact ⟨⟨_, rfl⟩, rfl, by simp [eventCalls], by simp [writeCalls]⟩

/-- Witness of C3: a Deployment named `example-deploy` without owner
reference stands in the way of `fixtureFoo`. -/
theorem syncHandler_conflict_witness :
    (fixtureController [fixtureFoo] [fixtureStranger] fixtureRef).deploymentsLister
        fixtureFoo.Namespace fixtureFoo.Spec.DeploymentName = .ok fixtureStranger
      ∧ fixtureStranger.OwnerReferences = []
      ∧ (syncHandler (fixtureController [fixtureFoo] [fixtureStranger] fixtureRef) fixtureRef).1
          = [.event fixtureFoo "Warning" "ErrResourceExists"
              "Resource %q already exists and is not managed by Foo" ["example-deploy"]] :=
  ⟨rfl, rfl,
    (syncHandler_conflict (fixtureController [fixtureFoo] [fixtureStranger] fixtureRef)
      fixtureRef fixtureFoo fixtureStranger rfl (by decide) rfl (Or.inl rfl)).2.1⟩

end SampleController

namespace SampleController

/-! ## Reconciliation: repeated runs and the status write -/

/-- C4, counterexample: the state holds `fixtureFoo` (3 replicas wanted,
status 2) and its controlled Deployment (3 replicas, 2 available).  A run
writes `UpdateStatus` with an object equal to the cached Foo, so the state
after the run is the state before it; a second run meets the same state and
issues the same remote write again: its write calls are not zero. -/
theorem syncHandler_idempotence_counterexample :
    writeCalls
        (syncHandler (fixtureController [fixtureFoo] [fixtureDeployment (some 3)] fixtureRef)
          fixtureRef).1 = [.foosUpdateStatus "default" fixtureFoo]
      ∧ ¬ writeCalls
          (syncHandler (fixtureController [fixtureFoo] [fixtureDeployment (some 3)] fixtureRef)
            fixtureRef).1 = [] := by
  decide

/-- C4, amended: a run of `syncHandler` against caches that show what a
successful run leaves behind (the Foo's Deployment present, controlled by the
Foo, and carrying the Foo's replica count when the Foo declares one) issues
no Deployment Create and no Deployment Update; its remote writes are exactly
one Foo `UpdateStatus` call, which every successful run issues. -/
theorem syncHandler_second_run_writes (c : Controller) (objectRef : ObjectName) (foo : Foo)
    (d : Deployment)
    (hfoo : c.foosLister objectRef.Namespace objectRef.Name = .ok foo)
    (hname : foo.Spec.DeploymentName ≠ "")
    (hget : c.deploymentsLister foo.Namespace foo.Spec.DeploymentName = .ok d)
    (hctl : IsControlledBy d.toObjectMeta foo.toObjectMeta = true)
    (hrep : foo.Spec.Replicas = none
      ∨ ∃ R, foo.Spec.Replicas = some R ∧ d.Spec.Replicas = some R) :
    createCalls (syncHandler c objectRef).1 = []
      ∧ updateCalls (syncHandler c objectRef).1 = []
      ∧ writeCalls (syncHandler c objectRef).1
          = [.foosUpdateStatus foo.Namespace
              { foo with Status := { AvailableReplicas := d.Status.AvailableReplicas } }] := by
  unfold syncHandler updateFooStatus Foo.DeepCopy
  simp only [hfoo, hname, hget, hctl, if_false, Bool.not_true]
  rcases hrep with hR | ⟨R, hR, hr⟩
  · simp only [hR]
    refine ⟨?_, ?_, ?_⟩
    all_goals repeat' split
    all_goals simp_all [createCalls, updateCalls, writeCalls]
  · simp only [hR, hr, bne_self_eq_false]
    refine ⟨?_, ?_, ?_⟩
    all_goals repeat' split
    all_goals simp_all [createCalls, updateCalls, writeCalls]

/-- Witness of the amended C4: the converged state of the counterexample. -/
theorem syncHandler_second_run_writes_witness :
    IsControlledBy (fixtureDeployment (some 3)).toObjectMeta fixtureFoo.toObjectMeta = true
      ∧ (∃ R, fixtureFoo.Spec.Replicas = some R ∧ (fixtureDeployment (some 3)).Spec.Replicas = some R)
      ∧ createCalls
          (syncHandler (fixtureController [fixtureFoo] [fixtureDeployment (some 3)] fixtureRef)
            fixtureRef).1 = []
      ∧ updateCalls
          (syncHandler (fixtureController [fixtureFoo] [fixtureDeployment (some 3)] fixtureRef)
            fixtureRef).1 = [] :=
  ⟨rfl, ⟨3, rfl, rfl⟩,
    (syncHandler_second_run_writes
      (fixtureController [fixtureFoo] [fixtureDeployment (some 3)] fixtureRef) fixtureRef
      fixtureFoo (fixtureDeployment (some 3)) rfl (by decide) rfl rfl
      (Or.inr ⟨3, rfl, rfl⟩)).1,
    (syncHandler_second_run_writes
      (fixtureController [fixtureFoo] [fixtureDeployment (some 3)] fixtureRef) fixtureRef
      fixtureFoo (fixtureDeployment (some 3)) rfl (by decide) rfl rfl
      (Or.inr ⟨3, rfl, rfl⟩)).2.1⟩

theorem syncHandler_of_converged (c : Controller) (objectRef : ObjectName) (foo : Foo)
    (d0 d : Deployment)
    (hfoo : c.foosLister objectRef.Namespace objectRef.Name = .ok foo)
    (hname : foo.Spec.DeploymentName ≠ "")
    (hgot : c.deploymentsLister foo.Namespace foo.Spec.DeploymentName = .ok d0
      ∨ ∃ err, c.deploymentsLister foo.Namespace foo.Spec.DeploymentName = .error err
          ∧ IsNotFound (some err) = true
          ∧ c.deploymentsCreate foo.Namespace (newDeployment foo) = .ok d0)
    (hctl : IsControlledBy d0.toObjectMeta foo.toObjectMeta = true)
    (hres : ((foo.Spec.Replicas = none
          ∨ ∃ R, foo.Spec.Replicas = some R ∧ d0.Spec.Replicas = some R) ∧ d = d0)
      ∨ ((∃ R r, foo.Spec.Replicas = some R ∧ d0.Spec.Replicas = some r ∧ R ≠ r)
          ∧ c.deploymentsUpdate foo.Namespace (newDeployment foo) = .ok d)) :
    ∃ pre, statusCalls pre = [] ∧ eventCalls pre = []
      ∧ syncHandler c objectRef =
        match c.foosUpdateStatus foo.Namespace
            { foo with Status := { AvailableReplicas := d.Status.AvailableReplicas } } with
        | .error e =>
          (pre ++ [.foosUpdateStatus foo.Namespace
                { foo with Status := { AvailableReplicas := d.Status.AvailableReplicas } }],
            .returned (some e))
        | .ok _ =>
          (pre ++ [.foosUpdateStatus foo.Namespace
                { foo with Status := { AvailableReplicas := d.Status.AvailableReplicas } },
              .event foo EventTypeNormal SuccessSynced MessageResourceSynced []],
            .returned none) := by
  rcases hgot with hget | ⟨e0, hget, hnf, hcr⟩
  · rcases hres with ⟨hR | ⟨R, hR, hr⟩, rfl⟩ | ⟨⟨R, r, hR, hr, hRr⟩, hupd⟩
    · refine ⟨[], rfl, rfl, ?_⟩
      cases hst : c.foosUpdateStatus foo.Namespace
        { foo with Status := { AvailableReplicas := d.Status.AvailableReplicas } } <;>
      simp [syncHandler, updateFooStatus, Foo.DeepCopy, hfoo, hname, hget, hctl, hR, hst]
    · refine ⟨[], rfl, rfl, ?_⟩
      cases hst : c.foosUpdateStatus foo.Namespace
        { foo with Status := { AvailableReplicas := d.Status.AvailableReplicas } } <;>
      simp [syncHandler, updateFooStatus, Foo.DeepCopy, hfoo, hname, hget, hctl, hR, hr, hst]
    · have hb : (R != r) = true := by simpa using hRr
      refine ⟨[.deploymentsUpdate foo.Namespace (newDeployment foo)], rfl, rfl, ?_⟩
      cases hst : c.foosUpdateStatus foo.Namespace
        { foo with Status := { AvailableReplicas := d.Status.AvailableReplicas } } <;>
      simp [syncHandler, updateFooStatus, Foo.DeepCopy, hfoo, hname, hget, hctl, hR, hr, hb,
        hupd, hst]
  · rcases hres with ⟨hR | ⟨R, hR, hr⟩, rfl⟩ | ⟨⟨R, r, hR, hr, hRr⟩, hupd⟩
    · refine ⟨[.deploymentsCreate foo.Namespace (newDeployment foo)], rfl, rfl, ?_⟩
      cases hst : c.foosUpdateStatus foo.Namespace
        { foo with Status := { AvailableReplicas := d.Status.AvailableReplicas } } <;>
      simp [syncHandler, updateFooStatus, Foo.DeepCopy, hfoo, hname, hget, hnf, hcr, hctl, hR,
        hst]
    · refine ⟨[.deploymentsCreate foo.Namespace (newDeployment foo)], rfl, rfl, ?_⟩
      cases hst : c.foosUpdateStatus foo.Namespace
        { foo with Status := { AvailableReplicas := d.Status.AvailableReplicas } } <;>
      simp [syncHandler, updateFooStatus, Foo.DeepCopy, hfoo, hname, hget, hnf, hcr, hctl, hR,
        hr, hst]
    · have hb : (R != r) = true := by simpa using hRr
      refine ⟨[.deploymentsCreate foo.Namespace (newDeployment foo),
        .deploymentsUpdate foo.Namespace (newDeployment foo)], rfl, rfl, ?_⟩
      cases hst : c.foosUpdateStatus foo.Namespace
        { foo with Status := { AvailableReplicas := d.Status.AvailableReplicas } } <;>
      simp [syncHandler, updateFooStatus, Foo.DeepCopy, hfoo, hname, hget, hnf, hcr, hctl, hR,
        hr, hb, hupd, hst]

theorem statusCalls_append (xs ys : List Call) :
    statusCalls (xs ++ ys) = statusCalls xs ++ statusCalls ys := by
  simp [statusCalls]

theorem eventCalls_append (xs ys : List Call) :
    eventCalls (xs ++ ys) = eventCalls xs ++ eventCalls ys := by
  simp [eventCalls]

/-- C5 (Status propagation): let `d` be the Deployment step 3 of a run ends
with: the one found or created (`d0`, controlled by the Foo) when no update
is needed, or the one returned by Update when the replica counts differ.  If
`d` reports `AvailableReplicas = A`, the run issues exactly one
`UpdateStatus` call, in the Foo's namespace, whose object has
`Status.AvailableReplicas = A` and the Foo's spec and metadata unchanged.
The object sent is the deep copy `updateFooStatus` makes: the Foo held in the
cache is, when `updateFooStatus` returns, the Foo it was (its status
included), and the event the run records after a successful write is on that
unmodified Foo. -/
theorem syncHandler_status (c : Controller) (objectRef : ObjectName) (foo : Foo)
    (d0 d : Deployment) (A : Int)
    (hfoo : c.foosLister objectRef.Namespace objectRef.Name = .ok foo)
    (hname : foo.Spec.DeploymentName ≠ "")
    (hgot : c.deploymentsLister foo.Namespace foo.Spec.DeploymentName = .ok d0
      ∨ ∃ err, c.deploymentsLister foo.Namespace foo.Spec.DeploymentName = .error err
          ∧ IsNotFound (some err) = true
          ∧ c.deploymentsCreate foo.Namespace (newDeployment foo) = .ok d0)
    (hctl : IsControlledBy d0.toObjectMeta foo.toObjectMeta = true)
    (hres : ((foo.Spec.Replicas = none
          ∨ ∃ R, foo.Spec.Replicas = some R ∧ d0.Spec.Replicas = some R) ∧ d = d0)
      ∨ ((∃ R r, foo.Spec.Replicas = some R ∧ d0.Spec.Replicas = some r ∧ R ≠ r)
          ∧ c.deploymentsUpdate foo.Namespace (newDeployment foo) = .ok d))
    (hA : d.Status.AvailableReplicas = A) :
    ∃ fooCopy : Foo,
      statusCalls (syncHandler c objectRef).1 = [.foosUpdateStatus foo.Namespace fooCopy]
        ∧ fooCopy.Status.AvailableReplicas = A
        ∧ fooCopy.Spec = foo.Spec
        ∧ fooCopy.toObjectMeta = foo.toObjectMeta
        ∧ (updateFooStatus c foo d).calls = [.foosUpdateStatus foo.Namespace fooCopy]
        ∧ (updateFooStatus c foo d).foo = foo
        ∧ eventCalls (syncHandler c objectRef).1
            = match c.foosUpdateStatus foo.Namespace fooCopy with
              | .ok _ => [.event foo EventTypeNormal SuccessSynced MessageResourceSynced []]
              | .error _ => [] := by
  obtain ⟨pre, hpreS, hpreE, hrun⟩ :=
    syncHandler_of_converged c objectRef foo d0 d hfoo hname hgot hctl hres
  refine ⟨{ foo with Status := { AvailableReplicas := d.Status.AvailableReplicas } },
    ?_, hA, rfl, rfl, rfl, rfl, ?_⟩
  · rw [hrun]
    cases c.foosUpdateStatus foo.Namespace
        { foo with Status := { AvailableReplicas := d.Status.AvailableReplicas } } with
    | error e =>
      simp only []
      rw [statusCalls_append, hpreS]
      simp [statusCalls]
    | ok r =>
      simp only []
      rw [statusCalls_append, hpreS]
      simp [statusCalls]
  · rw [hrun]
    cases c.foosUpdateStatus foo.Namespace
        { foo with Status := { AvailableReplicas := d.Status.AvailableReplicas } } with
    | error e =>
      simp only []
      rw [eventCalls_append, hpreE]
      simp [eventCalls]
    | ok r =>
      simp only []
      rw [eventCalls_append, hpreE]
      simp [eventCalls]

/-- Witness of C5: `fixtureFoo` with status 0 in the cache and its controlled
Deployment reporting 2 available replicas: the status written is 2, on a
copy; the cached Foo still has status 0 when `updateFooStatus` returns and
the Synced event is recorded on it. -/
theorem syncHandler_status_witness :
    (fixtureController [{ fixtureFoo with Status := { AvailableReplicas := 0 } }]
        [fixtureDeployment (some 3)] fixtureRef).foosLister fixtureRef.Namespace fixtureRef.Name
        = .ok { fixtureFoo with Status := { AvailableReplicas := 0 } }
      ∧ (fixtureDeployment (some 3)).Status.AvailableReplicas = 2
      ∧ ∃ fooCopy : Foo,
          statusCalls
              (syncHandler
                (fixtureController [{ fixtureFoo with Status := { AvailableReplicas := 0 } }]
                  [fixtureDeployment (some 3)] fixtureRef) fixtureRef).1
            = [.foosUpdateStatus "default" fooCopy]
          ∧ fooCopy.Status.AvailableReplicas = 2
          ∧ fooCopy.Spec = fixtureFoo.Spec
          ∧ fooCopy.toObjectMeta = fixtureFoo.toObjectMeta
          ∧ (updateFooStatus
                (fixtureController [{ fixtureFoo with Status := { AvailableReplicas := 0 } }]
                  [fixtureDeployment (some 3)] fixtureRef)
                { fixtureFoo with Status := { AvailableReplicas := 0 } }
                (fixtureDeployment (some 3))).calls
            = [.foosUpdateStatus "default" fooCopy]
          ∧ (updateFooStatus
                (fixtureController [{ fixtureFoo with Status := { AvailableReplicas := 0 } }]
                  [fixtureDeployment (some 3)] fixtureRef)
                { fixtureFoo with Status := { AvailableReplicas := 0 } }
                (fixtureDeployment (some 3))).foo
            = { fixtureFoo with Status := { AvailableReplicas := 0 } }
          ∧ eventCalls
              (syncHandler
                (fixtureController [{ fixtureFoo with Status := { AvailableReplicas := 0 } }]
                  [fixtureDeployment (some 3)] fixtureRef) fixtureRef).1
            = [.event { fixtureFoo with Status := { AvailableReplicas := 0 } }
                "Normal" "Synced" "Foo synced successfully" []] :=
  ⟨rfl, rfl,
    syncHandler_status
      (fixtureController [{ fixtureFoo with Status := { AvailableReplicas := 0 } }]
        [fixtureDeployment (some 3)] fixtureRef) fixtureRef
      { fixtureFoo with Status := { AvailableReplicas := 0 } }
      (fixtureDeployment (some 3)) (fixtureDeployment (some 3)) 2
      rfl (by decide) (Or.inl rfl) rfl (Or.inl ⟨Or.inr ⟨3, rfl, rfl⟩, rfl⟩) rfl⟩

end SampleController

namespace SampleController

/-! ## Error policy and the worker cycle -/

theorem queueCalls_syncHandler (c : Controller) (objectRef : ObjectName) :
    queueCalls (syncHandler c objectRef).1 = [] := by
  unfold syncHandler updateFooStatus Foo.DeepCopy
  rcases c.foosLister objectRef.Namespace objectRef.Name with e | foo
  · by_cases hnf : IsNotFound (some e) = true <;> simp [hnf, queueCalls]
  · by_cases hname : foo.Spec.DeploymentName = ""
    · simp [hname, queueCalls]
    · simp only [hname, if_false]
      rcases c.deploymentsLister foo.Namespace foo.Spec.DeploymentName with e | d
      · by_cases hnf : IsNotFound (some e) = true
        · simp only [hnf, if_true]
          rcases c.deploymentsCreate foo.Namespace (newDeployment foo) with e2 | d
          · simp [queueCalls]
          · simp only []
            repeat' split
            all_goals simp_all [queueCalls]
        · simp [hnf, queueCalls]
      · simp only []
        repeat' split
        all_goals simp_all [queueCalls]

theorem processNextWorkItem_of_shutdown (c : Controller) (objectRef : ObjectName)
    (hget : c.workqueueGet = (objectRef, true)) :
    processNextWorkItem c = ([.queueGet], .returned false) := by
  simp [processNextWorkItem, hget]

theorem processNextWorkItem_of_nil (c : Controller) (objectRef : ObjectName)
    (hget : c.workqueueGet = (objectRef, false))
    (hrun : (syncHandler c objectRef).2 = .returned none) :
    processNextWorkItem c
      = ([.queueGet] ++ (syncHandler c objectRef).1
          ++ [.queueForget objectRef, .queueDone objectRef], .returned true) := by
  rcases hs : syncHandler c objectRef with ⟨calls, out⟩
  rw [hs] at hrun
  simp only at hrun
  subst hrun
  simp [processNextWorkItem, hget, hs]

theorem processNextWorkItem_of_error (c : Controller) (objectRef : ObjectName) (err : Error)
    (hget : c.workqueueGet = (objectRef, false))
    (hrun : (syncHandler c objectRef).2 = .returned (some err)) :
    processNextWorkItem c
      = ([.queueGet] ++ (syncHandler c objectRef).1
          ++ [.handleError (some err) "Error syncing; requeuing for later retry",
              .queueAddRateLimited objectRef, .queueDone objectRef], .returned true) := by
  rcases hs : syncHandler c objectRef with ⟨calls, out⟩
  rw [hs] at hrun
  simp only at hrun
  subst hrun
  simp [processNextWorkItem, hget, hs]

theorem processNextWorkItem_of_panic (c : Controller) (objectRef : ObjectName)
    (hget : c.workqueueGet = (objectRef, false))
    (hrun : (syncHandler c objectRef).2 = .panicked) :
    processNextWorkItem c
      = ([.queueGet] ++ (syncHandler c objectRef).1 ++ [.queueDone objectRef], .panicked) := by
  rcases hs : syncHandler c objectRef with ⟨calls, out⟩
  rw [hs] at hrun
  simp only at hrun
  subst hrun
  simp [processNextWorkItem, hget, hs]

theorem queueCalls_append (xs ys : List Call) :
    queueCalls (xs ++ ys) = queueCalls xs ++ queueCalls ys := by
  simp [queueCalls]

/-- C6 (Error policy): when a cache or remote call of a `syncHandler` run
fails with `err` (Foo lookup or Deployment lookup with an error other than
not-found, Deployment Create, Deployment Update, Foo UpdateStatus), the run
returns `err`, the failing call is the last call of the run (no write follows
it, no Synced event is recorded, and a failed lookup leaves the run without
any call); and for a run that returns an error `processNextWorkItem` calls
`AddRateLimited` on the identity, not `Forget`. -/
theorem syncHandler_error_policy (c : Controller) (objectRef : ObjectName) (err : Error) :
    (c.foosLister objectRef.Namespace objectRef.Name = .error err →
        IsNotFound (some err) = false →
        syncHandler c objectRef = ([], .returned (some err)))
      ∧ (∀ foo, c.foosLister objectRef.Namespace objectRef.Name = .ok foo →
          foo.Spec.DeploymentName ≠ "" →
          c.deploymentsLister foo.Namespace foo.Spec.DeploymentName = .error err →
          IsNotFound (some err) = false →
          syncHandler c objectRef = ([], .returned (some err)))
      ∧ (∀ foo e0, c.foosLister objectRef.Namespace objectRef.Name = .ok foo →
          foo.Spec.DeploymentName ≠ "" →
          c.deploymentsLister foo.Namespace foo.Spec.DeploymentName = .error e0 →
          IsNotFound (some e0) = true →
          c.deploymentsCreate foo.Namespace (newDeployment foo) = .error err →
          syncHandler c objectRef
            = ([.deploymentsCreate foo.Namespace (newDeployment foo)], .returned (some err)))
      ∧ (∀ foo d0 R r, c.foosLister objectRef.Namespace objectRef.Name = .ok foo →
          foo.Spec.DeploymentName ≠ "" →
          (c.deploymentsLister foo.Namespace foo.Spec.DeploymentName = .ok d0
            ∨ ∃ e0, c.deploymentsLister foo.Namespace foo.Spec.DeploymentName = .error e0
                ∧ IsNotFound (some e0) = true
                ∧ c.deploymentsCreate foo.Namespace (newDeployment foo) = .ok d0) →
          IsControlledBy d0.toObjectMeta foo.toObjectMeta = true →
          foo.Spec.Replicas = some R → d0.Spec.Replicas = some r → R ≠ r →
          c.deploymentsUpdate foo.Namespace (newDeployment foo) = .error err →
          ∃ pre, (pre = [] ∨ pre = [.deploymentsCreate foo.Namespace (newDeployment foo)])
            ∧ syncHandler c objectRef
              = (pre ++ [.deploymentsUpdate foo.Namespace (newDeployment foo)],
                  .returned (some err)))
      ∧ (∀ foo d0 d, c.foosLister objectRef.Namespace objectRef.Name = .ok foo →
          foo.Spec.DeploymentName ≠ "" →
          (c.deploymentsLister foo.Namespace foo.Spec.DeploymentName = .ok d0
            ∨ ∃ e0, c.deploymentsLister foo.Namespace foo.Spec.DeploymentName = .error e0
                ∧ IsNotFound (some e0) = true
                ∧ c.deploymentsCreate foo.Namespace (newDeployment foo) = .ok d0) →
          IsControlledBy d0.toObjectMeta foo.toObjectMeta = true →
          (((foo.Spec.Replicas = none
                ∨ ∃ R, foo.Spec.Replicas = some R ∧ d0.Spec.Replicas = some R) ∧ d = d0)
            ∨ ((∃ R r, foo.Spec.Replicas = some R ∧ d0.Spec.Replicas = some r ∧ R ≠ r)
                ∧ c.deploymentsUpdate foo.Namespace (newDeployment foo) = .ok d)) →
          c.foosUpdateStatus foo.Namespace
              { foo with Status := { AvailableReplicas := d.Status.AvailableReplicas } }
            = .error err →
          ∃ pre, statusCalls pre = [] ∧ eventCalls pre = []
            ∧ syncHandler c objectRef
              = (pre ++ [.foosUpdateStatus foo.Namespace
                    { foo with Status := { AvailableReplicas := d.Status.AvailableReplicas } }],
                  .returned (some err)))
      ∧ (c.workqueueGet = (objectRef, false) →
          (syncHandler c objectRef).2 = .returned (some err) →
          (processNextWorkItem c).2 = .returned true
            ∧ queueCalls (processNextWorkItem c).1
              = [.queueAddRateLimited objectRef, .queueDone objectRef]) := by
  refine ⟨?_, ?_, ?_, ?_, ?_, ?_⟩
  · intro hfoo hnf
    simp [syncHandler, hfoo, hnf]
  · intro foo hfoo hname hget hnf
    simp [syncHandler, hfoo, hname, hget, hnf]
  · intro foo e0 hfoo hname hget hnf hcr
    simp [syncHandler, hfoo, hname, hget, hnf, hcr]
  · intro foo d0 R r hfoo hname hgot hctl hR hr hRr hupd
    have hb : (R != r) = true := by simpa using hRr
    rcases hgot with hget | ⟨e0, hget, hnf, hcr⟩
    · exact ⟨[], Or.inl rfl, by
        simp [syncHandler, hfoo, hname, hget, hctl, hR, hr, hb, hupd]⟩
    · exact ⟨_, Or.inr rfl, by
        simp [syncHandler, hfoo, hname, hget, hnf, hcr, hctl, hR, hr, hb, hupd]⟩
  · intro foo d0 d hfoo hname hgot hctl hres hst
    rcases hgot with hget | ⟨e0, hget, hnf, hcr⟩
    · rcases hres with ⟨hR | ⟨R, hR, hr⟩, rfl⟩ | ⟨⟨R, r, hR, hr, hRr⟩, hupd⟩
      · exact ⟨[], rfl, rfl, by
          simp [syncHandler, updateFooStatus, Foo.DeepCopy, hfoo, hname, hget, hctl, hR, hst]⟩
      · exact ⟨[], rfl, rfl, by
          simp [syncHandler, updateFooStatus, Foo.DeepCopy, hfoo, hname, hget, hctl, hR, hr, hst]⟩
      · have hb : (R != r) = true := by simpa using hRr
        exact ⟨[.deploymentsUpdate foo.Namespace (newDeployment foo)], rfl, rfl, by
          simp [syncHandler, updateFooStatus, Foo.DeepCopy, hfoo, hname, hget, hctl, hR, hr, hb, hupd, hst]⟩
    · rcases hres with ⟨hR | ⟨R, hR, hr⟩, rfl⟩ | ⟨⟨R, r, hR, hr, hRr⟩, hupd⟩
      · exact ⟨[.deploymentsCreate foo.Namespace (newDeployment foo)], rfl, rfl, by
          simp [syncHandler, updateFooStatus, Foo.DeepCopy, hfoo, hname, hget, hnf, hcr, hctl, hR, hst]⟩
      · exact ⟨[.deploymentsCreate foo.Namespace (newDeployment foo)], rfl, rfl, by
          simp [syncHandler, updateFooStatus, Foo.DeepCopy, hfoo, hname, hget, hnf, hcr, hctl, hR, hr, hst]⟩
      · have hb : (R != r) = true := by simpa using hRr
        exact ⟨[.deploymentsCreate foo.Namespace (newDeployment foo),
            .deploymentsUpdate foo.Namespace (newDeployment foo)], rfl, rfl, by
          simp [syncHandler, updateFooStatus, Foo.DeepCopy, hfoo, hname, hget, hnf, hcr, hctl, hR, hr, hb,
            hupd, hst]⟩
  · intro hget hrun
    rw [processNextWorkItem_of_error c objectRef err hget hrun]
    refine ⟨rfl, ?_⟩
    rw [queueCalls_append, queueCalls_append, queueCalls_syncHandler]
    simp [queueCalls]

end SampleController

namespace SampleController

/-- Witness of C6: each of the five calls failing with `fixtureUnavailable`,
and the worker cycle after the failed Create. -/
theorem syncHandler_error_policy_witness :
    syncHandler (fixtureBrokenFoos fixtureRef) fixtureRef
        = ([], .returned (some fixtureUnavailable))
      ∧ syncHandler (fixtureBrokenDeployments [fixtureFoo] fixtureRef) fixtureRef
        = ([], .returned (some fixtureUnavailable))
      ∧ syncHandler (fixtureBrokenWrites [fixtureFoo] [] fixtureRef) fixtureRef
        = ([.deploymentsCreate "default" (newDeployment fixtureFoo)],
            .returned (some fixtureUnavailable))
      ∧ (∃ pre, (pre = [] ∨ pre = [.deploymentsCreate "default" (newDeployment fixtureFoo)])
          ∧ syncHandler (fixtureBrokenWrites [fixtureFoo] [fixtureDeployment (some 1)] fixtureRef)
              fixtureRef
            = (pre ++ [.deploymentsUpdate "default" (newDeployment fixtureFoo)],
                .returned (some fixtureUnavailable)))
      ∧ (∃ pre, statusCalls pre = [] ∧ eventCalls pre = []
          ∧ syncHandler (fixtureBrokenWrites [fixtureFoo] [fixtureDeployment (some 3)] fixtureRef)
              fixtureRef
            = (pre ++ [.foosUpdateStatus "default" fixtureFoo],
                .returned (some fixtureUnavailable)))
      ∧ ((processNextWorkItem (fixtureBrokenWrites [fixtureFoo] [] fixtureRef)).2
            = .returned true
          ∧ queueCalls (processNextWorkItem (fixtureBrokenWrites [fixtureFoo] [] fixtureRef)).1
            = [.queueAddRateLimited fixtureRef, .queueDone fixtureRef]) :=
  ⟨(syncHandler_error_policy (fixtureBrokenFoos fixtureRef) fixtureRef fixtureUnavailable).1
      rfl rfl,
    (syncHandler_error_policy (fixtureBrokenDeployments [fixtureFoo] fixtureRef) fixtureRef
      fixtureUnavailable).2.1 fixtureFoo rfl (by decide) rfl rfl,
    (syncHandler_error_policy (fixtureBrokenWrites [fixtureFoo] [] fixtureRef) fixtureRef
      fixtureUnavailable).2.2.1 fixtureFoo fixtureNotFound rfl (by decide) rfl rfl rfl,
    (syncHandler_error_policy
      (fixtureBrokenWrites [fixtureFoo] [fixtureDeployment (some 1)] fixtureRef) fixtureRef
      fixtureUnavailable).2.2.2.1 fixtureFoo (fixtureDeployment (some 1)) 3 1 rfl (by decide)
      (Or.inl rfl) rfl rfl rfl (by decide) rfl,
    (syncHandler_error_policy
      (fixtureBrokenWrites [fixtureFoo] [fixtureDeployment (some 3)] fixtureRef) fixtureRef
      fixtureUnavailable).2.2.2.2.1 fixtureFoo (fixtureDeployment (some 3))
      (fixtureDeployment (some 3)) rfl (by decide) (Or.inl rfl) rfl
      (Or.inl ⟨Or.inr ⟨3, rfl, rfl⟩, rfl⟩) rfl,
    (syncHandler_error_policy (fixtureBrokenWrites [fixtureFoo] [] fixtureRef) fixtureRef
      fixtureUnavailable).2.2.2.2.2 rfl rfl⟩

/-- C7 (Absorbed conditions): when the Foo lookup answers not-found, and when
the Foo found has an empty `Spec.DeploymentName`, `syncHandler` returns nil
and issues no Create, no Update, no UpdateStatus and records no event; the
worker cycle then forgets the item and does not re-queue it. -/
theorem syncHandler_absorbed (c : Controller) (objectRef : ObjectName)
    (h : (∃ err, c.foosLister objectRef.Namespace objectRef.Name = .error err
          ∧ IsNotFound (some err) = true)
      ∨ ∃ foo, c.foosLister objectRef.Namespace objectRef.Name = .ok foo
          ∧ foo.Spec.DeploymentName = "") :
    (syncHandler c objectRef).2 = .returned none
      ∧ writeCalls (syncHandler c objectRef).1 = []
      ∧ eventCalls (syncHandler c objectRef).1 = []
      ∧ (c.workqueueGet = (objectRef, false) →
          (processNextWorkItem c).2 = .returned true
            ∧ queueCalls (processNextWorkItem c).1
              = [.queueForget objectRef, .queueDone objectRef]) := by
  have hrun : ∃ e msg, syncHandler c objectRef = ([.handleError e msg], .returned none) := by
    rcases h with ⟨err, hfoo, hnf⟩ | ⟨foo, hfoo, hname⟩
    · exact ⟨some err, "Foo referenced by item in work queue no longer exists", by
        simp [syncHandler, hfoo, hnf]⟩
    · exact ⟨none, "Deployment name missing from object reference", by
        simp [syncHandler, hfoo, hname]⟩
  obtain ⟨e, msg, hrun⟩ := hrun
  refine ⟨by rw [hrun], by rw [hrun]; simp [writeCalls], by rw [hrun]; simp [eventCalls], ?_⟩
  intro hget
  rw [processNextWorkItem_of_nil c objectRef hget (by rw [hrun])]
  refine ⟨rfl, ?_⟩
  rw [queueCalls_append, queueCalls_append, queueCalls_syncHandler]
  simp [queueCalls]

/-- Witness of C7: an identity whose Foo is absent from the cache, and a Foo
with an empty Deployment name. -/
theorem syncHandler_absorbed_witness :
    ((syncHandler (fixtureController [] [] fixtureRef) fixtureRef).2 = .returned none
        ∧ writeCalls (syncHandler (fixtureController [] [] fixtureRef) fixtureRef).1 = [])
      ∧ (fixtureNameless.Spec.DeploymentName = ""
        ∧ (syncHandler
              (fixtureController [fixtureNameless] []
                { Namespace := "default", Name := "nameless-foo" })
              { Namespace := "default", Name := "nameless-foo" }).2 = .returned none
        ∧ queueCalls
            (processNextWorkItem
              (fixtureController [fixtureNameless] []
                { Namespace := "default", Name := "nameless-foo" })).1
          = [.queueForget { Namespace := "default", Name := "nameless-foo" },
              .queueDone { Namespace := "default", Name := "nameless-foo" }]) :=
  ⟨⟨(syncHandler_absorbed (fixtureController [] [] fixtureRef) fixtureRef
        (Or.inl ⟨fixtureNotFound, rfl, rfl⟩)).1,
      (syncHandler_absorbed (fixtureController [] [] fixtureRef) fixtureRef
        (Or.inl ⟨fixtureNotFound, rfl, rfl⟩)).2.1⟩,
    rfl,
    (syncHandler_absorbed
      (fixtureController [fixtureNameless] [] { Namespace := "default", Name := "nameless-foo" })
      { Namespace := "default", Name := "nameless-foo" }
      (Or.inr ⟨fixtureNameless, rfl, rfl⟩)).1,
    ((syncHandler_absorbed
      (fixtureController [fixtureNameless] [] { Namespace := "default", Name := "nameless-foo" })
      { Namespace := "default", Name := "nameless-foo" }
      (Or.inr ⟨fixtureNameless, rfl, rfl⟩)).2.2.2 rfl).2⟩

/-- C8, counterexample: in a cycle whose `syncHandler` run succeeds, the
queue calls after `Get` are `Forget` and then `Done`; `Done` does not come
before `Forget`. -/
theorem processNextWorkItem_order_counterexample :
    queueCalls
        (processNextWorkItem
          (fixtureController [fixtureFoo] [fixtureDeployment (some 3)] fixtureRef)).1
        = [.queueForget fixtureRef, .queueDone fixtureRef]
      ∧ ¬ queueCalls
          (processNextWorkItem
            (fixtureController [fixtureFoo] [fixtureDeployment (some 3)] fixtureRef)).1
          = [.queueDone fixtureRef, .queueForget fixtureRef] := by
  decide

/-- C8, amended (Worker cycle order): if the queue's `Get` reports shutdown,
the cycle returns false with no call after `Get`.  Otherwise the cycle runs
`syncHandler` once on the identity and, when that run returns, calls exactly
one of `Forget` (run returned nil) or `AddRateLimited` (run returned an
error), then `Done` on the identity (it is deferred to the end of the
cycle), and returns true. -/
theorem processNextWorkItem_order (c : Controller) (objectRef : ObjectName) (shutdown : Bool)
    (hget : c.workqueueGet = (objectRef, shutdown)) :
    (shutdown = true → processNextWorkItem c = ([.queueGet], .returned false))
      ∧ (shutdown = false → (syncHandler c objectRef).2 = .returned none →
          processNextWorkItem c
              = ([.queueGet] ++ (syncHandler c objectRef).1
                  ++ [.queueForget objectRef, .queueDone objectRef], .returned true)
            ∧ queueCalls (processNextWorkItem c).1
              = [.queueForget objectRef, .queueDone objectRef])
      ∧ (shutdown = false → ∀ err, (syncHandler c objectRef).2 = .returned (some err) →
          processNextWorkItem c
              = ([.queueGet] ++ (syncHandler c objectRef).1
                  ++ [.handleError (some err) "Error syncing; requeuing for later retry",
                      .queueAddRateLimited objectRef, .queueDone objectRef], .returned true)
            ∧ queueCalls (processNextWorkItem c).1
              = [.queueAddRateLimited objectRef, .queueDone objectRef]) := by
  refine ⟨?_, ?_, ?_⟩
  · intro hs
    subst hs
    exact processNextWorkItem_of_shutdown c objectRef hget
  · intro hs hrun
    subst hs
    have hp := processNextWorkItem_of_nil c objectRef hget hrun
    refine ⟨hp, ?_⟩
    rw [hp, queueCalls_append, queueCalls_append, queueCalls_syncHandler]
    simp [queueCalls]
  · intro hs err hrun
    subst hs
    have hp := processNextWorkItem_of_error c objectRef err hget hrun
    refine ⟨hp, ?_⟩
    rw [hp, queueCalls_append, queueCalls_append, queueCalls_syncHandler]
    simp [queueCalls]

/-- Witness of the amended C8: a queue that reports shutdown, and a cycle
whose run fails on Create. -/
theorem processNextWorkItem_order_witness :
    (fixtureShutDown fixtureRef).workqueueGet = (fixtureRef, true)
      ∧ processNextWorkItem (fixtureShutDown fixtureRef) = ([.queueGet], .returned false)
      ∧ (fixtureBrokenWrites [fixtureFoo] [] fixtureRef).workqueueGet = (fixtureRef, false)
      ∧ queueCalls (processNextWorkItem (fixtureBrokenWrites [fixtureFoo] [] fixtureRef)).1
          = [.queueAddRateLimited fixtureRef, .queueDone fixtureRef] :=
  ⟨rfl,
    (processNextWorkItem_order (fixtureShutDown fixtureRef) fixtureRef true rfl).1 rfl,
    rfl,
    ((processNextWorkItem_order (fixtureBrokenWrites [fixtureFoo] [] fixtureRef) fixtureRef
      false rfl).2.2 rfl fixtureUnavailable rfl).2⟩

theorem syncHandler_panics_of_nil_replicas (c : Controller) (objectRef : ObjectName)
    (foo : Foo) (d : Deployment) (R : Int)
    (hfoo : c.foosLister objectRef.Namespace objectRef.Name = .ok foo)
    (hname : foo.Spec.DeploymentName ≠ "")
    (hget : c.deploymentsLister foo.Namespace foo.Spec.DeploymentName = .ok d)
    (hctl : IsControlledBy d.toObjectMeta foo.toObjectMeta = true)
    (hR : foo.Spec.Replicas = some R) (hr : d.Spec.Replicas = none) :
    syncHandler c objectRef = ([], .panicked) := by
  simp [syncHandler, hfoo, hname, hget, hctl, hR, hr]

/-- C9, counterexample: `fixtureFoo` declares 3 replicas and its controlled
Deployment has no replica count, so `syncHandler` panics on the comparison;
`processNextWorkItem` then calls only the deferred `Done` and panics itself:
it does not return true and does not call `AddRateLimited`. -/
theorem processNextWorkItem_panic_counterexample :
    (syncHandler (fixtureController [fixtureFoo] [fixtureDeployment none] fixtureRef)
        fixtureRef).2 = .panicked
      ∧ processNextWorkItem (fixtureController [fixtureFoo] [fixtureDeployment none] fixtureRef)
        = ([.queueGet, .queueDone fixtureRef], .panicked)
      ∧ ¬ ((processNextWorkItem
              (fixtureController [fixtureFoo] [fixtureDeployment none] fixtureRef)).2
            = .returned true
          ∧ Call.queueAddRateLimited fixtureRef
            ∈ (processNextWorkItem
                (fixtureController [fixtureFoo] [fixtureDeployment none] fixtureRef)).1) := by
  decide

/-- C9, amended: when `syncHandler` panics, `processNextWorkItem` does not
catch the panic: after the calls of the run the only call is the deferred
`Done` on the identity (no `AddRateLimited`, no `Forget`), and the panic
propagates to the caller of `processNextWorkItem`, which returns no value. -/
theorem processNextWorkItem_panic (c : Controller) (objectRef : ObjectName)
    (hget : c.workqueueGet = (objectRef, false))
    (hrun : (syncHandler c objectRef).2 = .panicked) :
    processNextWorkItem c
        = ([.queueGet] ++ (syncHandler c objectRef).1 ++ [.queueDone objectRef], .panicked)
      ∧ queueCalls (processNextWorkItem c).1 = [.queueDone objectRef] := by
  have hp := processNextWorkItem_of_panic c objectRef hget hrun
  refine ⟨hp, ?_⟩
  rw [hp, queueCalls_append, queueCalls_append, queueCalls_syncHandler]
  simp [queueCalls]

/-- Witness of the amended C9: the state of the counterexample. -/
theorem processNextWorkItem_panic_witness :
    (syncHandler (fixtureController [fixtureFoo] [fixtureDeployment none] fixtureRef)
        fixtureRef).2 = .panicked
      ∧ queueCalls
          (processNextWorkItem
            (fixtureController [fixtureFoo] [fixtureDeployment none] fixtureRef)).1
        = [.queueDone fixtureRef] :=
  ⟨rfl,
    (processNextWorkItem_panic
      (fixtureController [fixtureFoo] [fixtureDeployment none] fixtureRef) fixtureRef rfl
      rfl).2⟩

end SampleController

namespace SampleController

/-! ## Owner resolution -/

theorem MetaObjectToName_eq (obj : ObjectMeta) :
    MetaObjectToName obj = { Namespace := obj.Namespace, Name := obj.Name } := by
  unfold MetaObjectToName
  split
  · rfl
  · rename_i hlen
    have hzero : obj.Namespace.length = 0 := by omega
    have hempty : obj.Namespace = "" := by
      rcases hns : obj.Namespace with ⟨chars⟩
      rw [hns] at hzero
      have : chars = [] := List.length_eq_zero.mp hzero
      subst this
      rfl
    rw [hempty]

theorem handleObject_of_object (c : Controller) (obj : Obj) (object : ObjectMeta)
    (hobj : obj.asObject = some object) :
    handleObject c obj =
      match GetControllerOf object with
      | none => []
      | some ownerRef =>
        if ownerRef.Kind = "Foo" then
          match c.foosLister object.Namespace ownerRef.Name with
          | .error _ => []
          | .ok foo => [.queueAdd { Namespace := foo.Namespace, Name := foo.Name }]
        else [] := by
  unfold handleObject
  simp only [hobj]
  rcases GetControllerOf object with _ | ownerRef
  · rfl
  · simp only []
    by_cases hkind : ownerRef.Kind = "Foo"
    · simp only [hkind, bne_self_eq_false, if_true]
      rcases c.foosLister object.Namespace ownerRef.Name with e | foo
      · rfl
      · simp [enqueueFoo, ObjectToName, Obj.asObject, MetaObjectToName_eq]
    · have hb : (ownerRef.Kind != "Foo") = true := by simpa using hkind
      simp [hb, hkind]

theorem fixtureController_key (foos : List Foo) (deployments : List Deployment)
    (item : ObjectName) (ns name : String) (foo : Foo)
    (h : (fixtureController foos deployments item).foosLister ns name = .ok foo) :
    foo.Namespace = ns ∧ foo.Name = name := by
  simp only [fixtureController] at h
  split at h
  · rename_i f hfind
    cases h
    have := List.find?_some hfind
    simpa using this
  · cases h

/-- C10 (Owner resolution and orphan handling): for every object with
metadata passed to `handleObject`, with a Foo lister that answers a lookup
with the Foo of the namespace and name asked for: the work queue receives an
`Add` if and only if the object has a controller reference (the owner
reference with the controller flag set), its kind is "Foo", and the lister
finds a Foo of the reference's name in the object's namespace; then the
calls are exactly one `Add`, of the identity (object namespace, reference
name).  An object with no owner reference, with no controller-flagged
reference, with a controller reference of another kind, or whose Foo the
lister does not find, produces no call at all: no enqueue and no error. -/
theorem handleObject_enqueue (c : Controller) (obj : Obj) (object : ObjectMeta)
    (hobj : obj.asObject = some object)
    (hkey : ∀ ns name foo, c.foosLister ns name = .ok foo →
      foo.Namespace = ns ∧ foo.Name = name) :
    ((∃ item, Call.queueAdd item ∈ handleObject c obj) ↔
        ∃ ownerRef, GetControllerOf object = some ownerRef ∧ ownerRef.Kind = "Foo"
          ∧ ∃ foo, c.foosLister object.Namespace ownerRef.Name = .ok foo)
      ∧ (∀ ownerRef, GetControllerOf object = some ownerRef → ownerRef.Kind = "Foo" →
          (∃ foo, c.foosLister object.Namespace ownerRef.Name = .ok foo) →
          handleObject c obj
            = [.queueAdd { Namespace := object.Namespace, Name := ownerRef.Name }])
      ∧ (object.OwnerReferences = [] → handleObject c obj = [])
      ∧ ((∀ ref ∈ object.OwnerReferences, ref.Controller ≠ some true) →
          handleObject c obj = [])
      ∧ (∀ ownerRef, GetControllerOf object = some ownerRef → ownerRef.Kind ≠ "Foo" →
          handleObject c obj = [])
      ∧ (∀ ownerRef err, GetControllerOf object = some ownerRef →
          c.foosLister object.Namespace ownerRef.Name = .error err →
          handleObject c obj = []) := by
  have hrun := handleObject_of_object c obj object hobj
  have hnone : (∀ ref ∈ object.OwnerReferences, ref.Controller ≠ some true) →
      GetControllerOf object = none := by
    intro hall
    unfold GetControllerOf
    rw [List.find?_eq_none]
    intro ref hmem
    simpa using hall ref hmem
  have hadd : ∀ ownerRef, GetControllerOf object = some ownerRef → ownerRef.Kind = "Foo" →
      (∃ foo, c.foosLister object.Namespace ownerRef.Name = .ok foo) →
      handleObject c obj
        = [.queueAdd { Namespace := object.Namespace, Name := ownerRef.Name }] := by
    rintro ownerRef hctl hkind ⟨foo, hfoo⟩
    obtain ⟨hns, hn⟩ := hkey _ _ _ hfoo
    rw [hrun]
    simp [hctl, hkind, hfoo, hns, hn]
  refine ⟨⟨?_, ?_⟩, hadd, ?_, ?_, ?_, ?_⟩
  · rintro ⟨item, hmem⟩
    rw [hrun] at hmem
    rcases hctl : GetControllerOf object with _ | ownerRef
    · simp [hctl] at hmem
    · by_cases hkind : ownerRef.Kind = "Foo"
      · rcases hfoo : c.foosLister object.Namespace ownerRef.Name with e | foo
        · simp [hctl, hkind, hfoo] at hmem
        · exact ⟨ownerRef, rfl, hkind, foo, hfoo⟩
      · simp [hctl, hkind] at hmem
  · rintro ⟨ownerRef, hctl, hkind, hfoo⟩
    rw [hadd ownerRef hctl hkind hfoo]
    exact ⟨_, List.mem_singleton.mpr rfl⟩
  · intro hnil
    rw [hrun, hnone (by rw [hnil]; intro ref hmem; cases hmem)]
  · intro hall
    rw [hrun, hnone hall]
  · intro ownerRef hctl hkind
    rw [hrun]
    simp [hctl, hkind]
  · intro ownerRef err hctl hfoo
    rw [hrun]
    simp [hctl, hfoo]

/-- Witness of C10: the Deployment of `fixtureFoo`, which carries the
controller reference `newDeployment` gave it, with `fixtureFoo` in the cache:
the identity `default/example-foo` is added. -/
theorem handleObject_enqueue_witness :
    (Obj.deployment (fixtureDeployment (some 3))).asObject
        = some (fixtureDeployment (some 3)).toObjectMeta
      ∧ GetControllerOf (fixtureDeployment (some 3)).toObjectMeta
        = some (NewControllerRef fixtureFoo.toObjectMeta SchemeGroupVersion "Foo")
      ∧ handleObject (fixtureController [fixtureFoo] [] fixtureRef)
          (.deployment (fixtureDeployment (some 3)))
        = [.queueAdd { Namespace := "default", Name := "example-foo" }] :=
  ⟨rfl, rfl,
    (handleObject_enqueue (fixtureController [fixtureFoo] [] fixtureRef)
      (.deployment (fixtureDeployment (some 3))) (fixtureDeployment (some 3)).toObjectMeta rfl
      (fixtureController_key [fixtureFoo] [] fixtureRef)).2.1
      (NewControllerRef fixtureFoo.toObjectMeta SchemeGroupVersion "Foo") rfl rfl
      ⟨fixtureFoo, rfl⟩⟩

end SampleController

namespace SampleController

/-! ## Change feed: resync filtering and tombstones -/

theorem enqueueFoo_foo (f : Foo) :
    enqueueFoo (.foo f) = [.queueAdd { Namespace := f.Namespace, Name := f.Name }] := by
  simp [enqueueFoo, ObjectToName, Obj.asObject, MetaObjectToName_eq]

/-- C11 (Resync filtering): for every Deployment update notification
`(old, new)`: when old and new carry the same ResourceVersion the handler
returns without any call (it does not reach `handleObject`, the queue is
untouched); when the markers differ its calls are exactly those of
`handleObject new`.  The Foo handlers do not filter: the add handler and the
update handler each enqueue the identity of the (new) Foo, whatever the old
object is. -/
theorem deploymentUpdateFunc_resync (c : Controller) (oldDepl newDepl : Deployment)
    (oldFoo newFoo : Foo) :
    (newDepl.ResourceVersion = oldDepl.ResourceVersion →
        deploymentUpdateFunc c (.deployment oldDepl) (.deployment newDepl) = ([], .returned ())
          ∧ queueCalls (deploymentUpdateFunc c (.deployment oldDepl) (.deployment newDepl)).1
            = [])
      ∧ (newDepl.ResourceVersion ≠ oldDepl.ResourceVersion →
          deploymentUpdateFunc c (.deployment oldDepl) (.deployment newDepl)
            = (handleObject c (.deployment newDepl), .returned ()))
      ∧ fooAddFunc (.foo newFoo)
          = [.queueAdd { Namespace := newFoo.Namespace, Name := newFoo.Name }]
      ∧ fooUpdateFunc (.foo oldFoo) (.foo newFoo)
          = [.queueAdd { Namespace := newFoo.Namespace, Name := newFoo.Name }] := by
  refine ⟨?_, ?_, ?_, ?_⟩
  · intro hsame
    have hrun : deploymentUpdateFunc c (.deployment oldDepl) (.deployment newDepl)
        = ([], .returned ()) := by
      simp [deploymentUpdateFunc, hsame]
    rw [hrun]
    exact ⟨rfl, rfl⟩
  · intro hdiff
    simp [deploymentUpdateFunc, hdiff]
  · exact enqueueFoo_foo newFoo
  · exact enqueueFoo_foo newFoo

/-- Witness of C11: the Deployment of `fixtureFoo` resynced with an unchanged
ResourceVersion (no call, although `handleObject` would enqueue the Foo), the
same Deployment updated to a new ResourceVersion (the Foo is enqueued), and a
Foo update with an unchanged ResourceVersion (the Foo is enqueued). -/
theorem deploymentUpdateFunc_resync_witness :
    handleObject (fixtureController [fixtureFoo] [] fixtureRef)
        (.deployment (fixtureDeployment (some 3)))
        = [.queueAdd { Namespace := "default", Name := "example-foo" }]
      ∧ deploymentUpdateFunc (fixtureController [fixtureFoo] [] fixtureRef)
          (.deployment (fixtureDeployment (some 1))) (.deployment (fixtureDeployment (some 3)))
        = ([], .returned ())
      ∧ deploymentUpdateFunc (fixtureController [fixtureFoo] [] fixtureRef)
          (.deployment (fixtureDeployment (some 1)))
          (.deployment { fixtureDeployment (some 3) with ResourceVersion := "12" })
        = ([.queueAdd { Namespace := "default", Name := "example-foo" }], .returned ())
      ∧ fooUpdateFunc (.foo fixtureFoo) (.foo fixtureFoo)
        = [.queueAdd { Namespace := "default", Name := "example-foo" }] :=
  ⟨rfl,
    ((deploymentUpdateFunc_resync (fixtureController [fixtureFoo] [] fixtureRef)
      (fixtureDeployment (some 1)) (fixtureDeployment (some 3)) fixtureFoo fixtureFoo).1 rfl).1,
    (deploymentUpdateFunc_resync (fixtureController [fixtureFoo] [] fixtureRef)
      (fixtureDeployment (some 1)) { fixtureDeployment (some 3) with ResourceVersion := "12" }
      fixtureFoo fixtureFoo).2.1 (by decide),
    (deploymentUpdateFunc_resync (fixtureController [fixtureFoo] [] fixtureRef)
      (fixtureDeployment (some 1)) (fixtureDeployment (some 3)) fixtureFoo fixtureFoo).2.2.2⟩

/-- C12 (Tombstone unwrapping): for every object with metadata,
`handleObject` on a tombstone whose last known object is that object makes
exactly the calls `handleObject` makes on the object itself; and for every
input that is neither an object with metadata nor a tombstone wrapping one,
`handleObject` returns after reporting one decoding error, with no call on
the work queue. -/
theorem handleObject_tombstone (c : Controller) :
    (∀ (obj : Obj) (object : ObjectMeta) (key : String), obj.asObject = some object →
        handleObject c (.tombstone key obj) = handleObject c obj)
      ∧ (∀ obj : Obj, obj.asObject = none →
          (∀ key inner, obj = .tombstone key inner → inner.asObject = none) →
          queueCalls (handleObject c obj) = []
            ∧ ∃ msg, handleObject c obj = [.handleError none msg]) := by
  constructor
  · intro obj object key hobj
    cases obj with
    | foo f => rfl
    | deployment d => rfl
    | object m => rfl
    | tombstone key2 inner => simp [Obj.asObject] at hobj
    | other typeName => simp [Obj.asObject] at hobj
  · intro obj hnone hinner
    have hrun : ∃ msg, handleObject c obj = [.handleError none msg] := by
      cases obj with
      | foo f => simp [Obj.asObject] at hnone
      | deployment d => simp [Obj.asObject] at hnone
      | object m => simp [Obj.asObject] at hnone
      | tombstone key inner =>
        have hin := hinner key inner rfl
        have hout : (Obj.tombstone key inner).asObject = none := rfl
        exact ⟨"Error decoding object tombstone, invalid type", by
          unfold handleObject
          simp only [hout, hin]⟩
      | other typeName =>
        exact ⟨"Error decoding object, invalid type", rfl⟩
    obtain ⟨msg, hrun⟩ := hrun
    rw [hrun]
    exact ⟨rfl, msg, rfl⟩

/-- Witness of C12: a tombstone of the Deployment of `fixtureFoo` enqueues the
Foo as the Deployment itself does; a tombstone of a tombstone and a value of
another type are dropped. -/
theorem handleObject_tombstone_witness :
    handleObject (fixtureController [fixtureFoo] [] fixtureRef)
        (.tombstone "default/example-deploy" (.deployment (fixtureDeployment (some 3))))
        = [.queueAdd { Namespace := "default", Name := "example-foo" }]
      ∧ handleObject (fixtureController [fixtureFoo] [] fixtureRef)
          (.tombstone "default/example-deploy" (.deployment (fixtureDeployment (some 3))))
        = handleObject (fixtureController [fixtureFoo] [] fixtureRef)
            (.deployment (fixtureDeployment (some 3)))
      ∧ queueCalls
          (handleObject (fixtureController [fixtureFoo] [] fixtureRef)
            (.tombstone "k" (.tombstone "k" (.deployment (fixtureDeployment (some 3)))))) = []
      ∧ queueCalls
          (handleObject (fixtureController [fixtureFoo] [] fixtureRef) (.other "string")) = [] :=
  ⟨rfl,
    (handleObject_tombstone (fixtureController [fixtureFoo] [] fixtureRef)).1
      (.deployment (fixtureDeployment (some 3))) (fixtureDeployment (some 3)).toObjectMeta
      "default/example-deploy" rfl,
    ((handleObject_tombstone (fixtureController [fixtureFoo] [] fixtureRef)).2
      (.tombstone "k" (.tombstone "k" (.deployment (fixtureDeployment (some 3))))) rfl
      (fun key inner h => by cases h; rfl)).1,
    ((handleObject_tombstone (fixtureController [fixtureFoo] [] fixtureRef)).2
      (.other "string") rfl (fun key inner h => by cases h)).1⟩

end SampleController

namespace SampleController

/-! ## Created objects and their creator -/

theorem IsControlledBy_newDeployment (foo : Foo) :
    IsControlledBy (newDeployment foo).toObjectMeta foo.toObjectMeta = true := by
  simp [IsControlledBy, GetControllerOf, newDeployment, NewControllerRef]

theorem syncHandler_of_created (c : Controller) (objectRef : ObjectName) (foo : Foo)
    (err : Error)
    (hfoo : c.foosLister objectRef.Namespace objectRef.Name = .ok foo)
    (hname : foo.Spec.DeploymentName ≠ "")
    (hget : c.deploymentsLister foo.Namespace foo.Spec.DeploymentName = .error err)
    (habsent : IsNotFound (some err) = true)
    (hback : c.deploymentsCreate foo.Namespace (newDeployment foo) = .ok (newDeployment foo)) :
    syncHandler c objectRef =
      match c.foosUpdateStatus foo.Namespace
          { foo with Status :=
              { AvailableReplicas := (newDeployment foo).Status.AvailableReplicas } } with
      | .error e =>
        ([.deploymentsCreate foo.Namespace (newDeployment foo),
            .foosUpdateStatus foo.Namespace
              { foo with Status :=
                  { AvailableReplicas := (newDeployment foo).Status.AvailableReplicas } }],
          .returned (some e))
      | .ok _ =>
        ([.deploymentsCreate foo.Namespace (newDeployment foo),
            .foosUpdateStatus foo.Namespace
              { foo with Status :=
                  { AvailableReplicas := (newDeployment foo).Status.AvailableReplicas } },
            .event foo EventTypeNormal SuccessSynced MessageResourceSynced []],
          .returned none) := by
  have hctl := IsControlledBy_newDeployment foo
  have hrep : (newDeployment foo).Spec.Replicas = foo.Spec.Replicas := rfl
  unfold syncHandler updateFooStatus Foo.DeepCopy
  simp only [hfoo, hname, hget, habsent, hback, hctl, hrep, if_true, if_false, Bool.not_true]
  have hlast : ∀ res : Except Error Foo,
      (match (match res with
          | .ok _ => (none : Option Error)
          | .error e => some e) with
        | some e =>
          ([Call.deploymentsCreate foo.Namespace (newDeployment foo)]
              ++ [Call.foosUpdateStatus foo.Namespace
                  { foo with Status :=
                      { AvailableReplicas := (newDeployment foo).Status.AvailableReplicas } }],
            Completion.returned (some e))
        | none =>
          ([Call.deploymentsCreate foo.Namespace (newDeployment foo)]
              ++ [Call.foosUpdateStatus foo.Namespace
                  { foo with Status :=
                      { AvailableReplicas := (newDeployment foo).Status.AvailableReplicas } }]
              ++ [Call.event foo EventTypeNormal SuccessSynced MessageResourceSynced []],
            Completion.returned none))
      = match res with
        | .error e =>
          ([.deploymentsCreate foo.Namespace (newDeployment foo),
              .foosUpdateStatus foo.Namespace
                { foo with Status :=
                    { AvailableReplicas := (newDeployment foo).Status.AvailableReplicas } }],
            .returned (some e))
        | .ok _ =>
          ([.deploymentsCreate foo.Namespace (newDeployment foo),
              .foosUpdateStatus foo.Namespace
                { foo with Status :=
                    { AvailableReplicas := (newDeployment foo).Status.AvailableReplicas } },
              .event foo EventTypeNormal SuccessSynced MessageResourceSynced []],
            .returned none) := by
    intro res
    cases res <;> rfl
  rcases foo.Spec.Replicas with _ | R
  · simp only [if_false]
    exact hlast _
  · simp only [bne_self_eq_false, if_false]
    exact hlast _

/-- C13 (Created objects are never in conflict with their creator): for every
Foo, `newDeployment foo` is controlled by the Foo: its controller reference
carries the Foo's UID.  So a `syncHandler` run that takes the create branch
and gets back the object it submitted records no Warning event (it does not
take the ownership-conflict branch), issues no Update (the replica counts are
the same value) and does not panic on the comparison, and goes on to the
status update: exactly one `UpdateStatus` call. -/
theorem syncHandler_created_controlled (foo : Foo) :
    IsControlledBy (newDeployment foo).toObjectMeta foo.toObjectMeta = true
      ∧ (∃ ref, GetControllerOf (newDeployment foo).toObjectMeta = some ref
          ∧ ref.UID = foo.UID)
      ∧ ∀ (c : Controller) (objectRef : ObjectName) (err : Error),
          c.foosLister objectRef.Namespace objectRef.Name = .ok foo →
          foo.Spec.DeploymentName ≠ "" →
          c.deploymentsLister foo.Namespace foo.Spec.DeploymentName = .error err →
          IsNotFound (some err) = true →
          c.deploymentsCreate foo.Namespace (newDeployment foo) = .ok (newDeployment foo) →
          (∀ obj reason format args,
              Call.event obj EventTypeWarning reason format args ∉ (syncHandler c objectRef).1)
            ∧ updateCalls (syncHandler c objectRef).1 = []
            ∧ (syncHandler c objectRef).2 ≠ .panicked
            ∧ statusCalls (syncHandler c objectRef).1
              = [.foosUpdateStatus foo.Namespace
                  { foo with Status :=
                      { AvailableReplicas := (newDeployment foo).Status.AvailableReplicas } }]
            := by
  refine ⟨IsControlledBy_newDeployment foo, ⟨_, rfl, rfl⟩, ?_⟩
  intro c objectRef err hfoo hname hget habsent hback
  have hnormal : EventTypeNormal ≠ EventTypeWarning := by decide
  rw [syncHandler_of_created c objectRef foo err hfoo hname hget habsent hback]
  rcases c.foosUpdateStatus foo.Namespace
      { foo with Status :=
          { AvailableReplicas := (newDeployment foo).Status.AvailableReplicas } } with e | f
  · refine ⟨?_, by simp [updateCalls], by simp, by simp [statusCalls]⟩
    intro obj reason format args hmem
    simp at hmem
  · refine ⟨?_, by simp [updateCalls], by simp, by simp [statusCalls]⟩
    intro obj reason format args hmem
    simp at hmem
    exact hnormal hmem.2.1.symm

/-- Witness of C13: `fixtureFoo` with an empty Deployment cache and a client
that returns the object it is given. -/
theorem syncHandler_created_controlled_witness :
    (fixtureController [fixtureFoo] [] fixtureRef).deploymentsCreate fixtureFoo.Namespace
        (newDeployment fixtureFoo) = .ok (newDeployment fixtureFoo)
      ∧ updateCalls (syncHandler (fixtureController [fixtureFoo] [] fixtureRef) fixtureRef).1
        = []
      ∧ (syncHandler (fixtureController [fixtureFoo] [] fixtureRef) fixtureRef).2 ≠ .panicked
      ∧ statusCalls (syncHandler (fixtureController [fixtureFoo] [] fixtureRef) fixtureRef).1
        = [.foosUpdateStatus "default"
            { fixtureFoo with Status := { AvailableReplicas := 0 } }] :=
  ⟨rfl,
    ((syncHandler_created_controlled fixtureFoo).2.2
      (fixtureController [fixtureFoo] [] fixtureRef) fixtureRef fixtureNotFound
      rfl (by decide) rfl rfl rfl).2.1,
    ((syncHandler_created_controlled fixtureFoo).2.2
      (fixtureController [fixtureFoo] [] fixtureRef) fixtureRef fixtureNotFound
      rfl (by decide) rfl rfl rfl).2.2.1,
    ((syncHandler_created_controlled fixtureFoo).2.2
      (fixtureController [fixtureFoo] [] fixtureRef) fixtureRef fixtureNotFound
      rfl (by decide) rfl rfl rfl).2.2.2⟩

end SampleController
